import Mathlib

/-!
Shallow embedding of the zat Z80 test harness (jamesots/zat).

The embedding follows src/src/z80/Z80.ts (the CPU core), src/src/zat.ts
(the harness: backing memory, symbol table, run loop) and
src/src/io_spies.ts (the scripted I/O spies).

Conventions used throughout (JavaScript number semantics):
  * Registers are natural numbers; the source masks with `& 0xffff` or
    `& 0xff`, which on non-negative values is `% 65536` / `% 256`.
  * Where the source can produce a negative intermediate (subtraction,
    decrement, signed displacement arithmetic), the value is computed in
    Int and bitwise tests/masks go through the two's-complement 32-bit
    view, exactly as JavaScript bitwise operators do (jsU / iand below).
  * The 64 KiB backing memory of the harness (a Uint8Array) is a function
    Nat -> Nat; reads reduce the stored value mod 256 and writes store
    mod 256, which is precisely the Uint8Array element coercion.
  * The harness installs no user hooks in the scenarios modelled here,
    so mem_read falls through to backing memory, io_read is an
    environment function held in the state, and io_write appends to an
    observable trace.
-/

/-- Two's-complement 32-bit view of an Int, as a Nat (what JavaScript
bitwise operators apply to their operands). -/
def jsU (x : Int) : Nat := (x.emod 4294967296).toNat

/-- JavaScript `x & m` for a possibly negative x and a Nat mask. -/
def iand (x : Int) (m : Nat) : Nat := jsU x &&& m

/-- JavaScript `x & 0xff` on a possibly negative number. -/
def toByte (x : Int) : Nat := (x.emod 256).toNat

/-- JavaScript `x & 0xffff` on a possibly negative number. -/
def toWord (x : Int) : Nat := (x.emod 65536).toNat

/-- `cond ? 1 : 0` as the source writes flag values. -/
def fbit (b : Prop) [Decidable b] : Nat := if b then 1 else 0

/-- JavaScript `~x` on a non-negative 32-bit value, unsigned view. -/
def jsNot (x : Nat) : Nat := 4294967295 ^^^ (x &&& 4294967295)

/-- The eight flag bits, as in interface Flags of Z80.ts. -/
structure Flags where
  S : Nat
  Z : Nat
  Y : Nat
  H : Nat
  X : Nat
  P : Nat
  N : Nat
  C : Nat
  deriving Repr, DecidableEq

/-- The machine state: every field of class Z80 (registers, shadow
registers, interrupt state, the halted / delayed-DI / delayed-EI flags
and the cycle counter) together with the bus the zat harness provides
(backing memory, I/O input environment, I/O write trace). -/
structure Z80State where
  a : Nat
  b : Nat
  c : Nat
  d : Nat
  e : Nat
  h : Nat
  l : Nat
  a_alt : Nat
  b_alt : Nat
  c_alt : Nat
  d_alt : Nat
  e_alt : Nat
  h_alt : Nat
  l_alt : Nat
  ix : Nat
  iy : Nat
  i : Nat
  r : Nat
  sp : Nat
  pc : Nat
  flags : Flags
  flags_alt : Flags
  imode : Nat
  iff1 : Nat
  iff2 : Nat
  halted : Bool
  do_delayed_di : Bool
  do_delayed_ei : Bool
  cycle_counter : Nat
  mem : Nat → Nat
  io_in : Nat → Nat
  io_out : List (Nat × Nat)

/-- mem_read through the zat harness with no onMemRead hook:
`this.memory[addr] || 0` on a Uint8Array. -/
def memRead (s : Z80State) (addr : Nat) : Nat := s.mem addr % 256

/-- mem_write through the zat harness with no onMemWrite hook:
`this.memory[addr] = value` on a Uint8Array (stores value mod 256). -/
def memWrite (s : Z80State) (addr value : Nat) : Z80State :=
  { s with mem := fun x => if x = addr then value % 256 else s.mem x }

/-- io_read through the zat harness: the environment function. -/
def ioRead (s : Z80State) (port : Nat) : Nat := s.io_in port

/-- io_write through the zat harness: observable trace. -/
def ioWrite (s : Z80State) (port value : Nat) : Z80State :=
  { s with io_out := s.io_out ++ [(port, value)] }

/-- The R-register auto-increment used before every instruction and at
every prefix byte: high bit preserved, low 7 bits incremented. -/
def bumpR (r : Nat) : Nat := (r &&& 0x80) ||| (((r &&& 0x7f) + 1) &&& 0x7f)

/-- get_signed_offset_byte: un-two's-complement a byte. -/
def get_signed_offset_byte (value : Nat) : Int :=
  let value := value &&& 0xff
  if value &&& 0x80 ≠ 0 then (value : Int) - 256 else (value : Int)

/-- get_flags_register: pack the flag bits into F. -/
def get_flags_register (s : Z80State) : Nat :=
  (s.flags.S <<< 7) ||| (s.flags.Z <<< 6) ||| (s.flags.Y <<< 5) |||
  (s.flags.H <<< 4) ||| (s.flags.X <<< 3) ||| (s.flags.P <<< 2) |||
  (s.flags.N <<< 1) ||| s.flags.C

/-- get_flags_alt: pack the shadow flag bits into F'. -/
def get_flags_alt (s : Z80State) : Nat :=
  (s.flags_alt.S <<< 7) ||| (s.flags_alt.Z <<< 6) ||| (s.flags_alt.Y <<< 5) |||
  (s.flags_alt.H <<< 4) ||| (s.flags_alt.X <<< 3) ||| (s.flags_alt.P <<< 2) |||
  (s.flags_alt.N <<< 1) ||| s.flags_alt.C

/-- set_flags_register: unpack F into the separate flags. -/
def set_flags_register (operand : Nat) (s : Z80State) : Z80State :=
  { s with flags :=
    { S := (operand &&& 0x80) >>> 7
      Z := (operand &&& 0x40) >>> 6
      Y := (operand &&& 0x20) >>> 5
      H := (operand &&& 0x10) >>> 4
      X := (operand &&& 0x08) >>> 3
      P := (operand &&& 0x04) >>> 2
      N := (operand &&& 0x02) >>> 1
      C := operand &&& 0x01 } }

/-- set_flags_alt: unpack F' into the separate shadow flags. -/
def set_flags_alt (operand : Nat) (s : Z80State) : Z80State :=
  { s with flags_alt :=
    { S := (operand &&& 0x80) >>> 7
      Z := (operand &&& 0x40) >>> 6
      Y := (operand &&& 0x20) >>> 5
      H := (operand &&& 0x10) >>> 4
      X := (operand &&& 0x08) >>> 3
      P := (operand &&& 0x04) >>> 2
      N := (operand &&& 0x02) >>> 1
      C := operand &&& 0x01 } }

/-- update_xy_flags: Y and X from bits 5 and 3 of the given value. -/
def update_xy_flags (result : Nat) (s : Z80State) : Z80State :=
  { s with flags := { s.flags with
      Y := (result &&& 0x20) >>> 5
      X := (result &&& 0x08) >>> 3 } }

/-- The 256-entry parity table of get_parity (1 = even population count). -/
def parity_bits : List Nat := [
  1, 0, 0, 1, 0, 1, 1, 0, 0, 1, 1, 0, 1, 0, 0, 1,
  0, 1, 1, 0, 1, 0, 0, 1, 1, 0, 0, 1, 0, 1, 1, 0,
  0, 1, 1, 0, 1, 0, 0, 1, 1, 0, 0, 1, 0, 1, 1, 0,
  1, 0, 0, 1, 0, 1, 1, 0, 0, 1, 1, 0, 1, 0, 0, 1,
  0, 1, 1, 0, 1, 0, 0, 1, 1, 0, 0, 1, 0, 1, 1, 0,
  1, 0, 0, 1, 0, 1, 1, 0, 0, 1, 1, 0, 1, 0, 0, 1,
  1, 0, 0, 1, 0, 1, 1, 0, 0, 1, 1, 0, 1, 0, 0, 1,
  0, 1, 1, 0, 1, 0, 0, 1, 1, 0, 0, 1, 0, 1, 1, 0,
  0, 1, 1, 0, 1, 0, 0, 1, 1, 0, 0, 1, 0, 1, 1, 0,
  1, 0, 0, 1, 0, 1, 1, 0, 0, 1, 1, 0, 1, 0, 0, 1,
  1, 0, 0, 1, 0, 1, 1, 0, 0, 1, 1, 0, 1, 0, 0, 1,
  0, 1, 1, 0, 1, 0, 0, 1, 1, 0, 0, 1, 0, 1, 1, 0,
  1, 0, 0, 1, 0, 1, 1, 0, 0, 1, 1, 0, 1, 0, 0, 1,
  0, 1, 1, 0, 1, 0, 0, 1, 1, 0, 0, 1, 0, 1, 1, 0,
  0, 1, 1, 0, 1, 0, 0, 1, 1, 0, 0, 1, 0, 1, 1, 0,
  1, 0, 0, 1, 0, 1, 1, 0, 0, 1, 1, 0, 1, 0, 0, 1]

/-- get_parity: table lookup (callers always pass a byte). -/
def get_parity (value : Nat) : Nat := parity_bits.getD value 0

/-- push_word: decrement SP, write high byte, decrement, write low byte. -/
def push_word (operand : Nat) (s : Z80State) : Z80State :=
  let s := { s with sp := toWord ((s.sp : Int) - 1) }
  let s := memWrite s s.sp ((operand &&& 0xff00) >>> 8)
  let s := { s with sp := toWord ((s.sp : Int) - 1) }
  memWrite s s.sp (operand &&& 0x00ff)

/-- pop_word: read low byte, increment SP, read high byte, increment SP. -/
def pop_word (s : Z80State) : Nat × Z80State :=
  let retval := memRead s s.sp &&& 0xff
  let s := { s with sp := (s.sp + 1) % 65536 }
  let retval := retval ||| (memRead s s.sp <<< 8)
  (retval, { s with sp := (s.sp + 1) % 65536 })

/-- do_conditional_absolute_jump (JP cc,nn). -/
def do_conditional_absolute_jump (condition : Bool) (s : Z80State) : Z80State :=
  if condition then
    let s := { s with pc := memRead s ((s.pc + 1) % 65536) |||
                            (memRead s ((s.pc + 2) % 65536) <<< 8) }
    { s with pc := toWord ((s.pc : Int) - 1) }
  else
    { s with pc := (s.pc + 2) % 65536 }

/-- do_conditional_relative_jump (JR cc,n). -/
def do_conditional_relative_jump (condition : Bool) (s : Z80State) : Z80State :=
  if condition then
    let s := { s with cycle_counter := s.cycle_counter + 5 }
    let offset := get_signed_offset_byte (memRead s ((s.pc + 1) % 65536))
    { s with pc := toWord ((s.pc : Int) + offset + 1) }
  else
    { s with pc := (s.pc + 1) % 65536 }

/-- do_conditional_call (CALL cc,nn). -/
def do_conditional_call (condition : Bool) (s : Z80State) : Z80State :=
  if condition then
    let s := { s with cycle_counter := s.cycle_counter + 7 }
    let s := push_word ((s.pc + 3) % 65536) s
    let s := { s with pc := memRead s ((s.pc + 1) % 65536) |||
                            (memRead s ((s.pc + 2) % 65536) <<< 8) }
    { s with pc := toWord ((s.pc : Int) - 1) }
  else
    { s with pc := (s.pc + 2) % 65536 }

/-- do_conditional_return (RET cc). -/
def do_conditional_return (condition : Bool) (s : Z80State) : Z80State :=
  if condition then
    let s := { s with cycle_counter := s.cycle_counter + 6 }
    let q := pop_word s
    let w := q.1
    let s := q.2
    { s with pc := toWord ((w : Int) - 1) }
  else s

/-- do_reset (RST address). -/
def do_reset (address : Nat) (s : Z80State) : Z80State :=
  let s := push_word ((s.pc + 1) % 65536) s
  { s with pc := toWord ((address : Int) - 1) }

/-- do_add (ADD A, operand). -/
def do_add (operand : Nat) (s : Z80State) : Z80State :=
  let result : Int := (s.a : Int) + operand
  let s := { s with flags := { s.flags with
      S := fbit (iand result 0x80 ≠ 0)
      Z := fbit (iand result 0xff = 0)
      H := fbit ((((operand &&& 0x0f) + (s.a &&& 0x0f)) &&& 0x10) ≠ 0)
      P := fbit ((s.a &&& 0x80) = (operand &&& 0x80) ∧ (s.a &&& 0x80) ≠ iand result 0x80)
      N := 0
      C := fbit (iand result 0x100 ≠ 0) } }
  let s := { s with a := iand result 0xff }
  update_xy_flags s.a s

/-- do_adc (ADC A, operand). -/
def do_adc (operand : Nat) (s : Z80State) : Z80State :=
  let result : Int := (s.a : Int) + operand + s.flags.C
  let s := { s with flags := { s.flags with
      S := fbit (iand result 0x80 ≠ 0)
      Z := fbit (iand result 0xff = 0)
      H := fbit ((((operand &&& 0x0f) + (s.a &&& 0x0f) + s.flags.C) &&& 0x10) ≠ 0)
      P := fbit ((s.a &&& 0x80) = (operand &&& 0x80) ∧ (s.a &&& 0x80) ≠ iand result 0x80)
      N := 0
      C := fbit (iand result 0x100 ≠ 0) } }
  let s := { s with a := iand result 0xff }
  update_xy_flags s.a s

/-- do_sub (SUB operand). -/
def do_sub (operand : Nat) (s : Z80State) : Z80State :=
  let result : Int := (s.a : Int) - operand
  let s := { s with flags := { s.flags with
      S := fbit (iand result 0x80 ≠ 0)
      Z := fbit (iand result 0xff = 0)
      H := fbit (iand (((s.a &&& 0x0f : Nat) : Int) - ((operand &&& 0x0f : Nat) : Int)) 0x10 ≠ 0)
      P := fbit ((s.a &&& 0x80) ≠ (operand &&& 0x80) ∧ (s.a &&& 0x80) ≠ iand result 0x80)
      N := 1
      C := fbit (iand result 0x100 ≠ 0) } }
  let s := { s with a := iand result 0xff }
  update_xy_flags s.a s

/-- do_sbc (SBC A, operand). -/
def do_sbc (operand : Nat) (s : Z80State) : Z80State :=
  let result : Int := (s.a : Int) - operand - s.flags.C
  let s := { s with flags := { s.flags with
      S := fbit (iand result 0x80 ≠ 0)
      Z := fbit (iand result 0xff = 0)
      H := fbit (iand (((s.a &&& 0x0f : Nat) : Int) - ((operand &&& 0x0f : Nat) : Int) - (s.flags.C : Int)) 0x10 ≠ 0)
      P := fbit ((s.a &&& 0x80) ≠ (operand &&& 0x80) ∧ (s.a &&& 0x80) ≠ iand result 0x80)
      N := 1
      C := fbit (iand result 0x100 ≠ 0) } }
  let s := { s with a := iand result 0xff }
  update_xy_flags s.a s

/-- do_cp: a subtraction that does not save the value; X/Y from operand. -/
def do_cp (operand : Nat) (s : Z80State) : Z80State :=
  let temp := s.a
  let s := do_sub operand s
  let s := { s with a := temp }
  update_xy_flags operand s

/-- do_and (AND operand). -/
def do_and (operand : Nat) (s : Z80State) : Z80State :=
  let s := { s with a := s.a &&& (operand &&& 0xff) }
  let s := { s with flags := { s.flags with
      S := fbit ((s.a &&& 0x80) ≠ 0)
      Z := fbit (s.a = 0)
      H := 1
      P := get_parity s.a
      N := 0
      C := 0 } }
  update_xy_flags s.a s

/-- do_or (OR operand). -/
def do_or (operand : Nat) (s : Z80State) : Z80State :=
  let s := { s with a := (operand ||| s.a) &&& 0xff }
  let s := { s with flags := { s.flags with
      S := fbit ((s.a &&& 0x80) ≠ 0)
      Z := fbit (s.a = 0)
      H := 0
      P := get_parity s.a
      N := 0
      C := 0 } }
  update_xy_flags s.a s

/-- do_xor (XOR operand). -/
def do_xor (operand : Nat) (s : Z80State) : Z80State :=
  let s := { s with a := (operand ^^^ s.a) &&& 0xff }
  let s := { s with flags := { s.flags with
      S := fbit ((s.a &&& 0x80) ≠ 0)
      Z := fbit (s.a = 0)
      H := 0
      P := get_parity s.a
      N := 0
      C := 0 } }
  update_xy_flags s.a s

/-- do_inc: 8-bit increment; returns the result and the flag effects. -/
def do_inc (operand : Nat) (s : Z80State) : Nat × Z80State :=
  let result := operand + 1
  let s := { s with flags := { s.flags with
      S := fbit ((result &&& 0x80) ≠ 0)
      Z := fbit ((result &&& 0xff) = 0)
      H := fbit ((operand &&& 0x0f) = 0x0f)
      P := fbit (operand = 0x7f)
      N := 0 } }
  let result := result &&& 0xff
  (result, update_xy_flags result s)

/-- do_dec: 8-bit decrement; returns the result and the flag effects. -/
def do_dec (operand : Nat) (s : Z80State) : Nat × Z80State :=
  let result : Int := (operand : Int) - 1
  let s := { s with flags := { s.flags with
      S := fbit (iand result 0x80 ≠ 0)
      Z := fbit (iand result 0xff = 0)
      H := fbit ((operand &&& 0x0f) = 0x00)
      P := fbit (operand = 0x80)
      N := 1 } }
  let result := iand result 0xff
  (result, update_xy_flags result s)

/-- do_hl_add (ADD HL, operand). -/
def do_hl_add (operand : Nat) (s : Z80State) : Z80State :=
  let hl := s.l ||| (s.h <<< 8)
  let result := hl + operand
  let s := { s with flags := { s.flags with
      N := 0
      C := fbit ((result &&& 0x10000) ≠ 0)
      H := fbit ((((hl &&& 0x0fff) + (operand &&& 0x0fff)) &&& 0x1000) ≠ 0) } }
  let s := { s with l := result &&& 0xff, h := (result &&& 0xff00) >>> 8 }
  update_xy_flags s.h s

/-- do_hl_adc (ADC HL, operand). -/
def do_hl_adc (operand : Nat) (s : Z80State) : Z80State :=
  let operand := operand + s.flags.C
  let hl := s.l ||| (s.h <<< 8)
  let result := hl + operand
  let s := { s with flags := { s.flags with
      S := fbit ((result &&& 0x8000) ≠ 0)
      Z := fbit ((result &&& 0xffff) = 0)
      H := fbit ((((hl &&& 0x0fff) + (operand &&& 0x0fff)) &&& 0x1000) ≠ 0)
      P := fbit ((hl &&& 0x8000) = (operand &&& 0x8000) ∧ (result &&& 0x8000) ≠ (hl &&& 0x8000))
      N := 0
      C := fbit ((result &&& 0x10000) ≠ 0) } }
  let s := { s with l := result &&& 0xff, h := (result >>> 8) &&& 0xff }
  update_xy_flags s.h s

/-- do_hl_sbc (SBC HL, operand). -/
def do_hl_sbc (operand : Nat) (s : Z80State) : Z80State :=
  let operand := operand + s.flags.C
  let hl := s.l ||| (s.h <<< 8)
  let result : Int := (hl : Int) - operand
  let s := { s with flags := { s.flags with
      S := fbit (iand result 0x8000 ≠ 0)
      Z := fbit (iand result 0xffff = 0)
      H := fbit (iand (((hl &&& 0x0fff : Nat) : Int) - ((operand &&& 0x0fff : Nat) : Int)) 0x1000 ≠ 0)
      P := fbit ((hl &&& 0x8000) ≠ (operand &&& 0x8000) ∧ iand result 0x8000 ≠ (hl &&& 0x8000))
      N := 1
      C := fbit (iand result 0x10000 ≠ 0) } }
  let s := { s with l := iand result 0xff, h := (jsU result >>> 8) &&& 0xff }
  update_xy_flags s.h s

/-- do_in: read a port and set flags from the value. -/
def do_in (port : Nat) (s : Z80State) : Nat × Z80State :=
  let result := ioRead s port
  let s := { s with flags := { s.flags with
      S := fbit ((result &&& 0x80) ≠ 0)
      Z := fbit (result = 0)
      H := 0
      P := fbit (get_parity result ≠ 0)
      N := 0 } }
  (result, update_xy_flags result s)

/-- do_neg (NEG): A unchanged if 0x80, else two's-complement negate. -/
def do_neg (s : Z80State) : Z80State :=
  let s := if s.a ≠ 0x80 then
      { s with a := iand (-(get_signed_offset_byte s.a)) 0xff }
    else s
  let s := { s with flags := { s.flags with
      S := fbit ((s.a &&& 0x80) ≠ 0)
      Z := fbit (s.a = 0)
      H := fbit (iand (-(s.a : Int)) 0x0f > 0)
      P := fbit (s.a = 0x80)
      N := 1
      C := fbit (s.a ≠ 0) } }
  update_xy_flags s.a s

/-- do_ldi (the LDI block primitive body). -/
def do_ldi (s : Z80State) : Z80State :=
  let read_value := memRead s (s.l ||| (s.h <<< 8))
  let s := memWrite s (s.e ||| (s.d <<< 8)) read_value
  let result := (s.e ||| (s.d <<< 8)) + 1
  let s := { s with e := result &&& 0xff, d := (result &&& 0xff00) >>> 8 }
  let result := (s.l ||| (s.h <<< 8)) + 1
  let s := { s with l := result &&& 0xff, h := (result &&& 0xff00) >>> 8 }
  let result : Int := ((s.c ||| (s.b <<< 8) : Nat) : Int) - 1
  let s := { s with c := iand result 0xff, b := (iand result 0xff00) >>> 8 }
  { s with flags := { s.flags with
      H := 0
      P := fbit (s.c ≠ 0 ∨ s.b ≠ 0)
      N := 0
      Y := (iand ((s.a : Int) + read_value) 0x02) >>> 1
      X := (iand ((s.a : Int) + read_value) 0x08) >>> 3 } }

/-- do_cpi (the CPI block primitive body). -/
def do_cpi (s : Z80State) : Z80State :=
  let temp_carry := s.flags.C
  let read_value := memRead s (s.l ||| (s.h <<< 8))
  let s := do_cp read_value s
  let s := { s with flags := { s.flags with C := temp_carry } }
  let s := { s with flags := { s.flags with
      Y := (iand ((s.a : Int) - read_value - s.flags.H) 0x02) >>> 1
      X := (iand ((s.a : Int) - read_value - s.flags.H) 0x08) >>> 3 } }
  let result := (s.l ||| (s.h <<< 8)) + 1
  let s := { s with l := result &&& 0xff, h := (result &&& 0xff00) >>> 8 }
  let result : Int := ((s.c ||| (s.b <<< 8) : Nat) : Int) - 1
  let s := { s with c := iand result 0xff, b := (iand result 0xff00) >>> 8 }
  { s with flags := { s.flags with P := fbit (result ≠ 0) } }

/-- do_ini (the INI block primitive body). -/
def do_ini (s : Z80State) : Z80State :=
  let q := do_dec s.b s
  let bv := q.1
  let s := q.2
  let s := { s with b := bv }
  let s := memWrite s (s.l ||| (s.h <<< 8)) (ioRead s ((s.b <<< 8) ||| s.c))
  let result := (s.l ||| (s.h <<< 8)) + 1
  let s := { s with l := result &&& 0xff, h := (result &&& 0xff00) >>> 8 }
  { s with flags := { s.flags with N := 1 } }

/-- do_outi (the OUTI block primitive body). -/
def do_outi (s : Z80State) : Z80State :=
  let s := ioWrite s ((s.b <<< 8) ||| s.c) (memRead s (s.l ||| (s.h <<< 8)))
  let result := (s.l ||| (s.h <<< 8)) + 1
  let s := { s with l := result &&& 0xff, h := (result &&& 0xff00) >>> 8 }
  let q := do_dec s.b s
  let bv := q.1
  let s := q.2
  let s := { s with b := bv }
  { s with flags := { s.flags with N := 1 } }

/-- do_ldd (the LDD block primitive body). -/
def do_ldd (s : Z80State) : Z80State :=
  let s := { s with flags := { s.flags with N := 0, H := 0 } }
  let read_value := memRead s (s.l ||| (s.h <<< 8))
  let s := memWrite s (s.e ||| (s.d <<< 8)) read_value
  let result : Int := ((s.e ||| (s.d <<< 8) : Nat) : Int) - 1
  let s := { s with e := iand result 0xff, d := (iand result 0xff00) >>> 8 }
  let result : Int := ((s.l ||| (s.h <<< 8) : Nat) : Int) - 1
  let s := { s with l := iand result 0xff, h := (iand result 0xff00) >>> 8 }
  let result : Int := ((s.c ||| (s.b <<< 8) : Nat) : Int) - 1
  let s := { s with c := iand result 0xff, b := (iand result 0xff00) >>> 8 }
  { s with flags := { s.flags with
      P := fbit (s.c ≠ 0 ∨ s.b ≠ 0)
      Y := (iand ((s.a : Int) + read_value) 0x02) >>> 1
      X := (iand ((s.a : Int) + read_value) 0x08) >>> 3 } }

/-- do_cpd (the CPD block primitive body). -/
def do_cpd (s : Z80State) : Z80State :=
  let temp_carry := s.flags.C
  let read_value := memRead s (s.l ||| (s.h <<< 8))
  let s := do_cp read_value s
  let s := { s with flags := { s.flags with C := temp_carry } }
  let s := { s with flags := { s.flags with
      Y := (iand ((s.a : Int) - read_value - s.flags.H) 0x02) >>> 1
      X := (iand ((s.a : Int) - read_value - s.flags.H) 0x08) >>> 3 } }
  let result : Int := ((s.l ||| (s.h <<< 8) : Nat) : Int) - 1
  let s := { s with l := iand result 0xff, h := (iand result 0xff00) >>> 8 }
  let result : Int := ((s.c ||| (s.b <<< 8) : Nat) : Int) - 1
  let s := { s with c := iand result 0xff, b := (iand result 0xff00) >>> 8 }
  { s with flags := { s.flags with P := fbit (result ≠ 0) } }

/-- do_ind (the IND block primitive body). -/
def do_ind (s : Z80State) : Z80State :=
  let q := do_dec s.b s
  let bv := q.1
  let s := q.2
  let s := { s with b := bv }
  let s := memWrite s (s.l ||| (s.h <<< 8)) (ioRead s ((s.b <<< 8) ||| s.c))
  let result : Int := ((s.l ||| (s.h <<< 8) : Nat) : Int) - 1
  let s := { s with l := iand result 0xff, h := (iand result 0xff00) >>> 8 }
  { s with flags := { s.flags with N := 1 } }

/-- do_outd (the OUTD block primitive body). -/
def do_outd (s : Z80State) : Z80State :=
  let s := ioWrite s ((s.b <<< 8) ||| s.c) (memRead s (s.l ||| (s.h <<< 8)))
  let result : Int := ((s.l ||| (s.h <<< 8) : Nat) : Int) - 1
  let s := { s with l := iand result 0xff, h := (iand result 0xff00) >>> 8 }
  let q := do_dec s.b s
  let bv := q.1
  let s := q.2
  let s := { s with b := bv }
  { s with flags := { s.flags with N := 1 } }

/-- do_rlc: rotate left circular; returns result and flag effects. -/
def do_rlc (operand : Nat) (s : Z80State) : Nat × Z80State :=
  let s := { s with flags := { s.flags with N := 0, H := 0 } }
  let s := { s with flags := { s.flags with C := (operand &&& 0x80) >>> 7 } }
  let operand := ((operand <<< 1) ||| s.flags.C) &&& 0xff
  let s := { s with flags := { s.flags with
      Z := fbit (operand = 0)
      P := get_parity operand
      S := fbit ((operand &&& 0x80) ≠ 0) } }
  (operand, update_xy_flags operand s)

/-- do_rrc: rotate right circular. -/
def do_rrc (operand : Nat) (s : Z80State) : Nat × Z80State :=
  let s := { s with flags := { s.flags with N := 0, H := 0 } }
  let s := { s with flags := { s.flags with C := operand &&& 1 } }
  let operand := ((operand >>> 1) &&& 0x7f) ||| (s.flags.C <<< 7)
  let s := { s with flags := { s.flags with
      Z := fbit ((operand &&& 0xff) = 0)
      P := get_parity operand
      S := fbit ((operand &&& 0x80) ≠ 0) } }
  (operand &&& 0xff, update_xy_flags operand s)

/-- do_rl: rotate left through carry. -/
def do_rl (operand : Nat) (s : Z80State) : Nat × Z80State :=
  let s := { s with flags := { s.flags with N := 0, H := 0 } }
  let temp := s.flags.C
  let s := { s with flags := { s.flags with C := (operand &&& 0x80) >>> 7 } }
  let operand := ((operand <<< 1) ||| temp) &&& 0xff
  let s := { s with flags := { s.flags with
      Z := fbit (operand = 0)
      P := get_parity operand
      S := fbit ((operand &&& 0x80) ≠ 0) } }
  (operand, update_xy_flags operand s)

/-- do_rr: rotate right through carry. -/
def do_rr (operand : Nat) (s : Z80State) : Nat × Z80State :=
  let s := { s with flags := { s.flags with N := 0, H := 0 } }
  let temp := s.flags.C
  let s := { s with flags := { s.flags with C := operand &&& 1 } }
  let operand := ((operand >>> 1) &&& 0x7f) ||| (temp <<< 7)
  let s := { s with flags := { s.flags with
      Z := fbit (operand = 0)
      P := get_parity operand
      S := fbit ((operand &&& 0x80) ≠ 0) } }
  (operand, update_xy_flags operand s)

/-- do_sla: shift left arithmetic. -/
def do_sla (operand : Nat) (s : Z80State) : Nat × Z80State :=
  let s := { s with flags := { s.flags with N := 0, H := 0 } }
  let s := { s with flags := { s.flags with C := (operand &&& 0x80) >>> 7 } }
  let operand := (operand <<< 1) &&& 0xff
  let s := { s with flags := { s.flags with
      Z := fbit (operand = 0)
      P := get_parity operand
      S := fbit ((operand &&& 0x80) ≠ 0) } }
  (operand, update_xy_flags operand s)

/-- do_sra: shift right arithmetic (sign preserved). -/
def do_sra (operand : Nat) (s : Z80State) : Nat × Z80State :=
  let s := { s with flags := { s.flags with N := 0, H := 0 } }
  let s := { s with flags := { s.flags with C := operand &&& 1 } }
  let operand := ((operand >>> 1) &&& 0x7f) ||| (operand &&& 0x80)
  let s := { s with flags := { s.flags with
      Z := fbit (operand = 0)
      P := get_parity operand
      S := fbit ((operand &&& 0x80) ≠ 0) } }
  (operand, update_xy_flags operand s)

/-- do_sll: undocumented shift left with bit 0 forced to 1. -/
def do_sll (operand : Nat) (s : Z80State) : Nat × Z80State :=
  let s := { s with flags := { s.flags with N := 0, H := 0 } }
  let s := { s with flags := { s.flags with C := (operand &&& 0x80) >>> 7 } }
  let operand := ((operand <<< 1) &&& 0xff) ||| 1
  let s := { s with flags := { s.flags with
      Z := fbit (operand = 0)
      P := get_parity operand
      S := fbit ((operand &&& 0x80) ≠ 0) } }
  (operand, update_xy_flags operand s)

/-- do_srl: shift right logical. -/
def do_srl (operand : Nat) (s : Z80State) : Nat × Z80State :=
  let s := { s with flags := { s.flags with N := 0, H := 0 } }
  let s := { s with flags := { s.flags with C := operand &&& 1 } }
  let operand := (operand >>> 1) &&& 0x7f
  let s := { s with flags := { s.flags with
      Z := fbit (operand = 0)
      P := get_parity operand
      S := 0 } }
  (operand, update_xy_flags operand s)

/-- do_ix_add (ADD IX, operand).  Note: the source stores the raw sum
into ix without masking it with 0xffff. -/
def do_ix_add (operand : Nat) (s : Z80State) : Z80State :=
  let s := { s with flags := { s.flags with N := 0 } }
  let result := s.ix + operand
  let s := { s with flags := { s.flags with
      C := fbit ((result &&& 0x10000) ≠ 0)
      H := fbit ((((s.ix &&& 0xfff) + (operand &&& 0xfff)) &&& 0x1000) ≠ 0) } }
  let s := update_xy_flags ((result &&& 0xff00) >>> 8) s
  { s with ix := result }

/-- The per-opcode T-state table for the primary opcodes (cycle_counts). -/
def cycle_counts : List Nat := [
  4, 10, 7, 6, 4, 4, 7, 4, 4, 11, 7, 6, 4, 4, 7, 4,
  8, 10, 7, 6, 4, 4, 7, 4, 12, 11, 7, 6, 4, 4, 7, 4,
  7, 10, 16, 6, 4, 4, 7, 4, 7, 11, 16, 6, 4, 4, 7, 4,
  7, 10, 13, 6, 11, 11, 10, 4, 7, 11, 13, 6, 4, 4, 7, 4,
  4, 4, 4, 4, 4, 4, 7, 4, 4, 4, 4, 4, 4, 4, 7, 4,
  4, 4, 4, 4, 4, 4, 7, 4, 4, 4, 4, 4, 4, 4, 7, 4,
  4, 4, 4, 4, 4, 4, 7, 4, 4, 4, 4, 4, 4, 4, 7, 4,
  7, 7, 7, 7, 7, 7, 4, 7, 4, 4, 4, 4, 4, 4, 7, 4,
  4, 4, 4, 4, 4, 4, 7, 4, 4, 4, 4, 4, 4, 4, 7, 4,
  4, 4, 4, 4, 4, 4, 7, 4, 4, 4, 4, 4, 4, 4, 7, 4,
  4, 4, 4, 4, 4, 4, 7, 4, 4, 4, 4, 4, 4, 4, 7, 4,
  4, 4, 4, 4, 4, 4, 7, 4, 4, 4, 4, 4, 4, 4, 7, 4,
  5, 10, 10, 10, 10, 11, 7, 11, 5, 10, 10, 0, 10, 17, 7, 11,
  5, 10, 10, 11, 10, 11, 7, 11, 5, 4, 10, 11, 10, 0, 7, 11,
  5, 10, 10, 19, 10, 11, 7, 11, 5, 4, 10, 4, 10, 0, 7, 11,
  5, 10, 10, 4, 10, 11, 7, 11, 5, 4, 10, 4, 10, 0, 7, 11]

/-- The T-state table for ED-prefixed opcodes (cycle_counts_ed). -/
def cycle_counts_ed : List Nat := [
  0, 0, 0, 0, 0, 0, 0, 0, 0, 0, 0, 0, 0, 0, 0, 0,
  0, 0, 0, 0, 0, 0, 0, 0, 0, 0, 0, 0, 0, 0, 0, 0,
  0, 0, 0, 0, 0, 0, 0, 0, 0, 0, 0, 0, 0, 0, 0, 0,
  0, 0, 0, 0, 0, 0, 0, 0, 0, 0, 0, 0, 0, 0, 0, 0,
  12, 12, 15, 20, 8, 14, 8, 9, 12, 12, 15, 20, 8, 14, 8, 9,
  12, 12, 15, 20, 8, 14, 8, 9, 12, 12, 15, 20, 8, 14, 8, 9,
  12, 12, 15, 20, 8, 14, 8, 18, 12, 12, 15, 20, 8, 14, 8, 18,
  12, 12, 15, 20, 8, 14, 8, 0, 12, 12, 15, 20, 8, 14, 8, 0,
  0, 0, 0, 0, 0, 0, 0, 0, 0, 0, 0, 0, 0, 0, 0, 0,
  0, 0, 0, 0, 0, 0, 0, 0, 0, 0, 0, 0, 0, 0, 0, 0,
  16, 16, 16, 16, 0, 0, 0, 0, 16, 16, 16, 16, 0, 0, 0, 0,
  16, 16, 16, 16, 0, 0, 0, 0, 16, 16, 16, 16, 0, 0, 0, 0,
  0, 0, 0, 0, 0, 0, 0, 0, 0, 0, 0, 0, 0, 0, 0, 0,
  0, 0, 0, 0, 0, 0, 0, 0, 0, 0, 0, 0, 0, 0, 0, 0,
  0, 0, 0, 0, 0, 0, 0, 0, 0, 0, 0, 0, 0, 0, 0, 0,
  0, 0, 0, 0, 0, 0, 0, 0, 0, 0, 0, 0, 0, 0, 0, 0]

/-- The T-state table for CB-prefixed opcodes (cycle_counts_cb). -/
def cycle_counts_cb : List Nat := [
  8, 8, 8, 8, 8, 8, 15, 8, 8, 8, 8, 8, 8, 8, 15, 8,
  8, 8, 8, 8, 8, 8, 15, 8, 8, 8, 8, 8, 8, 8, 15, 8,
  8, 8, 8, 8, 8, 8, 15, 8, 8, 8, 8, 8, 8, 8, 15, 8,
  8, 8, 8, 8, 8, 8, 15, 8, 8, 8, 8, 8, 8, 8, 15, 8,
  8, 8, 8, 8, 8, 8, 12, 8, 8, 8, 8, 8, 8, 8, 12, 8,
  8, 8, 8, 8, 8, 8, 12, 8, 8, 8, 8, 8, 8, 8, 12, 8,
  8, 8, 8, 8, 8, 8, 12, 8, 8, 8, 8, 8, 8, 8, 12, 8,
  8, 8, 8, 8, 8, 8, 12, 8, 8, 8, 8, 8, 8, 8, 12, 8,
  8, 8, 8, 8, 8, 8, 15, 8, 8, 8, 8, 8, 8, 8, 15, 8,
  8, 8, 8, 8, 8, 8, 15, 8, 8, 8, 8, 8, 8, 8, 15, 8,
  8, 8, 8, 8, 8, 8, 15, 8, 8, 8, 8, 8, 8, 8, 15, 8,
  8, 8, 8, 8, 8, 8, 15, 8, 8, 8, 8, 8, 8, 8, 15, 8,
  8, 8, 8, 8, 8, 8, 15, 8, 8, 8, 8, 8, 8, 8, 15, 8,
  8, 8, 8, 8, 8, 8, 15, 8, 8, 8, 8, 8, 8, 8, 15, 8,
  8, 8, 8, 8, 8, 8, 15, 8, 8, 8, 8, 8, 8, 8, 15, 8,
  8, 8, 8, 8, 8, 8, 15, 8, 8, 8, 8, 8, 8, 8, 15, 8]

/-- The T-state table for DD/FD-prefixed opcodes (cycle_counts_dd). -/
def cycle_counts_dd : List Nat := [
  0, 0, 0, 0, 0, 0, 0, 0, 0, 15, 0, 0, 0, 0, 0, 0,
  0, 0, 0, 0, 0, 0, 0, 0, 0, 15, 0, 0, 0, 0, 0, 0,
  0, 14, 20, 10, 8, 8, 11, 0, 0, 15, 20, 10, 8, 8, 11, 0,
  0, 0, 0, 0, 23, 23, 19, 0, 0, 15, 0, 0, 0, 0, 0, 0,
  0, 0, 0, 0, 8, 8, 19, 0, 0, 0, 0, 0, 8, 8, 19, 0,
  0, 0, 0, 0, 8, 8, 19, 0, 0, 0, 0, 0, 8, 8, 19, 0,
  8, 8, 8, 8, 8, 8, 19, 8, 8, 8, 8, 8, 8, 8, 19, 8,
  19, 19, 19, 19, 19, 19, 0, 19, 0, 0, 0, 0, 8, 8, 19, 0,
  0, 0, 0, 0, 8, 8, 19, 0, 0, 0, 0, 0, 8, 8, 19, 0,
  0, 0, 0, 0, 8, 8, 19, 0, 0, 0, 0, 0, 8, 8, 19, 0,
  0, 0, 0, 0, 8, 8, 19, 0, 0, 0, 0, 0, 8, 8, 19, 0,
  0, 0, 0, 0, 8, 8, 19, 0, 0, 0, 0, 0, 8, 8, 19, 0,
  0, 0, 0, 0, 0, 0, 0, 0, 0, 0, 0, 0, 0, 0, 0, 0,
  0, 0, 0, 0, 0, 0, 0, 0, 0, 0, 0, 0, 0, 0, 0, 0,
  0, 14, 0, 23, 0, 15, 0, 0, 0, 8, 0, 0, 0, 0, 0, 0,
  0, 0, 0, 0, 0, 0, 0, 0, 0, 10, 0, 0, 0, 0, 0, 0]

/-- The shift/rotate dispatch array used by the CB and DDCB decoders:
[rlc, rrc, rl, rr, sla, sra, sll, srl]. -/
def shift_op (idx : Nat) : Nat → Z80State → Nat × Z80State :=
  match idx with
  | 0 => do_rlc
  | 1 => do_rrc
  | 2 => do_rl
  | 3 => do_rr
  | 4 => do_sla
  | 5 => do_sra
  | 6 => do_sll
  | _ => do_srl

/-- The ALU dispatch array used by the primary decoder:
[add, adc, sub, sbc, and, xor, or, cp]. -/
def alu_op (idx : Nat) : Nat → Z80State → Z80State :=
  match idx with
  | 0 => do_add
  | 1 => do_adc
  | 2 => do_sub
  | 3 => do_sbc
  | 4 => do_and
  | 5 => do_xor
  | 6 => do_or
  | _ => do_cp

/-- Shared body of the LD rr,(nn) / LD (nn),rr ED handlers: fetch the
16-bit address operand, advancing PC past it. -/
def fetch_word_operand (s : Z80State) : Nat × Z80State :=
  let s := { s with pc := (s.pc + 1) % 65536 }
  let address := memRead s s.pc
  let s := { s with pc := (s.pc + 1) % 65536 }
  (address ||| (memRead s s.pc <<< 8), s)

/-- The ED opcode table (ed_instructions): none = no table entry. -/
def ed_instructions (opcode : Nat) (s : Z80State) : Option Z80State :=
  match opcode with
  | 0x40 => some (let q := do_in ((s.b <<< 8) ||| s.c) s; let v := q.1; let s := q.2; { s with b := v })
  | 0x41 => some (ioWrite s ((s.b <<< 8) ||| s.c) s.b)
  | 0x42 => some (do_hl_sbc (s.c ||| (s.b <<< 8)) s)
  | 0x43 => some (
      let q := fetch_word_operand s
      let address := q.1
      let s := q.2
      let s := memWrite s address s.c
      memWrite s ((address + 1) % 65536) s.b)
  | 0x44 => some (do_neg s)
  | 0x45 => some (
      let q := pop_word s
      let w := q.1
      let s := q.2
      { s with pc := toWord ((w : Int) - 1), iff1 := s.iff2 })
  | 0x46 => some { s with imode := 0 }
  | 0x47 => some { s with i := s.a }
  | 0x48 => some (let q := do_in ((s.b <<< 8) ||| s.c) s; let v := q.1; let s := q.2; { s with c := v })
  | 0x49 => some (ioWrite s ((s.b <<< 8) ||| s.c) s.c)
  | 0x4a => some (do_hl_adc (s.c ||| (s.b <<< 8)) s)
  | 0x4b => some (
      let q := fetch_word_operand s
      let address := q.1
      let s := q.2
      let s := { s with c := memRead s address }
      { s with b := memRead s ((address + 1) % 65536) })
  | 0x4c => some (do_neg s)
  | 0x4d => some (
      let q := pop_word s
      let w := q.1
      let s := q.2
      { s with pc := toWord ((w : Int) - 1) })
  | 0x4e => some { s with imode := 0 }
  | 0x4f => some { s with r := s.a }
  | 0x50 => some (let q := do_in ((s.b <<< 8) ||| s.c) s; let v := q.1; let s := q.2; { s with d := v })
  | 0x51 => some (ioWrite s ((s.b <<< 8) ||| s.c) s.d)
  | 0x52 => some (do_hl_sbc (s.e ||| (s.d <<< 8)) s)
  | 0x53 => some (
      let q := fetch_word_operand s
      let address := q.1
      let s := q.2
      let s := memWrite s address s.e
      memWrite s ((address + 1) % 65536) s.d)
  | 0x54 => some (do_neg s)
  | 0x55 => some (
      let q := pop_word s
      let w := q.1
      let s := q.2
      { s with pc := toWord ((w : Int) - 1), iff1 := s.iff2 })
  | 0x56 => some { s with imode := 1 }
  | 0x57 => some { s with a := s.i, flags := { s.flags with P := s.iff2 } }
  | 0x58 => some (let q := do_in ((s.b <<< 8) ||| s.c) s; let v := q.1; let s := q.2; { s with e := v })
  | 0x59 => some (ioWrite s ((s.b <<< 8) ||| s.c) s.e)
  | 0x5a => some (do_hl_adc (s.e ||| (s.d <<< 8)) s)
  | 0x5b => some (
      let q := fetch_word_operand s
      let address := q.1
      let s := q.2
      let s := { s with e := memRead s address }
      { s with d := memRead s ((address + 1) % 65536) })
  | 0x5c => some (do_neg s)
  | 0x5d => some (
      let q := pop_word s
      let w := q.1
      let s := q.2
      { s with pc := toWord ((w : Int) - 1), iff1 := s.iff2 })
  | 0x5e => some { s with imode := 2 }
  | 0x5f => some { s with a := s.r, flags := { s.flags with P := s.iff2 } }
  | 0x60 => some (let q := do_in ((s.b <<< 8) ||| s.c) s; let v := q.1; let s := q.2; { s with h := v })
  | 0x61 => some (ioWrite s ((s.b <<< 8) ||| s.c) s.h)
  | 0x62 => some (do_hl_sbc (s.l ||| (s.h <<< 8)) s)
  | 0x63 => some (
      let q := fetch_word_operand s
      let address := q.1
      let s := q.2
      let s := memWrite s address s.l
      memWrite s ((address + 1) % 65536) s.h)
  | 0x64 => some (do_neg s)
  | 0x65 => some (
      let q := pop_word s
      let w := q.1
      let s := q.2
      { s with pc := toWord ((w : Int) - 1), iff1 := s.iff2 })
  | 0x66 => some { s with imode := 0 }
  | 0x67 => some (
      let hl_value := memRead s (s.l ||| (s.h <<< 8))
      let temp1 := hl_value &&& 0x0f
      let temp2 := s.a &&& 0x0f
      let hl_value := ((hl_value &&& 0xf0) >>> 4) ||| (temp2 <<< 4)
      let s := { s with a := (s.a &&& 0xf0) ||| temp1 }
      let s := memWrite s (s.l ||| (s.h <<< 8)) hl_value
      let s := { s with flags := { s.flags with
          S := fbit ((s.a &&& 0x80) ≠ 0)
          Z := fbit (s.a = 0)
          H := 0
          P := fbit (get_parity s.a ≠ 0)
          N := 0 } }
      update_xy_flags s.a s)
  | 0x68 => some (let q := do_in ((s.b <<< 8) ||| s.c) s; let v := q.1; let s := q.2; { s with l := v })
  | 0x69 => some (ioWrite s ((s.b <<< 8) ||| s.c) s.l)
  | 0x6a => some (do_hl_adc (s.l ||| (s.h <<< 8)) s)
  | 0x6b => some (
      let q := fetch_word_operand s
      let address := q.1
      let s := q.2
      let s := { s with l := memRead s address }
      { s with h := memRead s ((address + 1) % 65536) })
  | 0x6c => some (do_neg s)
  | 0x6d => some (
      let q := pop_word s
      let w := q.1
      let s := q.2
      { s with pc := toWord ((w : Int) - 1), iff1 := s.iff2 })
  | 0x6e => some { s with imode := 0 }
  | 0x6f => some (
      let hl_value := memRead s (s.l ||| (s.h <<< 8))
      let temp1 := hl_value &&& 0xf0
      let temp2 := s.a &&& 0x0f
      let hl_value := ((hl_value &&& 0x0f) <<< 4) ||| temp2
      let s := { s with a := (s.a &&& 0xf0) ||| (temp1 >>> 4) }
      let s := memWrite s (s.l ||| (s.h <<< 8)) hl_value
      let s := { s with flags := { s.flags with
          S := fbit ((s.a &&& 0x80) ≠ 0)
          Z := fbit (s.a = 0)
          H := 0
          P := fbit (get_parity s.a ≠ 0)
          N := 0 } }
      update_xy_flags s.a s)
  | 0x70 => some (let q := do_in ((s.b <<< 8) ||| s.c) s; let s := q.2; s)
  | 0x71 => some (ioWrite s ((s.b <<< 8) ||| s.c) 0)
  | 0x72 => some (do_hl_sbc s.sp s)
  | 0x73 => some (
      let q := fetch_word_operand s
      let address := q.1
      let s := q.2
      let s := memWrite s address (s.sp &&& 0xff)
      memWrite s ((address + 1) % 65536) ((s.sp >>> 8) &&& 0xff))
  | 0x74 => some (do_neg s)
  | 0x75 => some (
      let q := pop_word s
      let w := q.1
      let s := q.2
      { s with pc := toWord ((w : Int) - 1), iff1 := s.iff2 })
  | 0x76 => some { s with imode := 1 }
  | 0x78 => some (let q := do_in ((s.b <<< 8) ||| s.c) s; let v := q.1; let s := q.2; { s with a := v })
  | 0x79 => some (ioWrite s ((s.b <<< 8) ||| s.c) s.a)
  | 0x7a => some (do_hl_adc s.sp s)
  | 0x7b => some (
      let q := fetch_word_operand s
      let address := q.1
      let s := q.2
      let s := { s with sp := memRead s address }
      { s with sp := s.sp ||| (memRead s ((address + 1) % 65536) <<< 8) })
  | 0x7c => some (do_neg s)
  | 0x7d => some (
      let q := pop_word s
      let w := q.1
      let s := q.2
      { s with pc := toWord ((w : Int) - 1), iff1 := s.iff2 })
  | 0x7e => some { s with imode := 2 }
  | 0xa0 => some (do_ldi s)
  | 0xa1 => some (do_cpi s)
  | 0xa2 => some (do_ini s)
  | 0xa3 => some (do_outi s)
  | 0xa8 => some (do_ldd s)
  | 0xa9 => some (do_cpd s)
  | 0xaa => some (do_ind s)
  | 0xab => some (do_outd s)
  | 0xb0 => some (
      let s := do_ldi s
      if s.b ≠ 0 ∨ s.c ≠ 0 then
        { s with cycle_counter := s.cycle_counter + 5, pc := toWord ((s.pc : Int) - 2) }
      else s)
  | 0xb1 => some (
      let s := do_cpi s
      if s.flags.Z = 0 ∧ (s.b ≠ 0 ∨ s.c ≠ 0) then
        { s with cycle_counter := s.cycle_counter + 5, pc := toWord ((s.pc : Int) - 2) }
      else s)
  | 0xb2 => some (
      let s := do_ini s
      if s.b ≠ 0 then
        { s with cycle_counter := s.cycle_counter + 5, pc := toWord ((s.pc : Int) - 2) }
      else s)
  | 0xb3 => some (
      let s := do_outi s
      if s.b ≠ 0 then
        { s with cycle_counter := s.cycle_counter + 5, pc := toWord ((s.pc : Int) - 2) }
      else s)
  | 0xb8 => some (
      let s := do_ldd s
      if s.b ≠ 0 ∨ s.c ≠ 0 then
        { s with cycle_counter := s.cycle_counter + 5, pc := toWord ((s.pc : Int) - 2) }
      else s)
  | 0xb9 => some (
      let s := do_cpd s
      if s.flags.Z = 0 ∧ (s.b ≠ 0 ∨ s.c ≠ 0) then
        { s with cycle_counter := s.cycle_counter + 5, pc := toWord ((s.pc : Int) - 2) }
      else s)
  | 0xba => some (
      let s := do_ind s
      if s.b ≠ 0 then
        { s with cycle_counter := s.cycle_counter + 5, pc := toWord ((s.pc : Int) - 2) }
      else s)
  | 0xbb => some (
      let s := do_outd s
      if s.b ≠ 0 then
        { s with cycle_counter := s.cycle_counter + 5, pc := toWord ((s.pc : Int) - 2) }
      else s)
  | _ => none

/-- Fetch the signed displacement operand of a (IX+n) instruction,
advancing PC past it. -/
def fetch_offset (s : Z80State) : Int × Z80State :=
  let s := { s with pc := (s.pc + 1) % 65536 }
  (get_signed_offset_byte (memRead s s.pc), s)

/-- The DDCB/FDCB handler (dd_instructions[0xcb]): a displacement byte,
then a sub-opcode; shift/rotate, BIT, RES and SET on (IX+d), with the
undocumented mirror of the result into an 8-bit register when the
sub-opcode's low 3 bits are not 6 and a result value exists. -/
def dd_cb_instruction (s : Z80State) : Z80State :=
  let q := fetch_offset s
  let offset := q.1
  let s := q.2
  let s := { s with pc := (s.pc + 1) % 65536 }
  let opcode := memRead s s.pc
  let sv :=
    if opcode < 0x40 then
      let q := shift_op ((opcode &&& 0x38) >>> 3)
                 (memRead s (toWord ((s.ix : Int) + offset))) s
      let v := q.1
      let s := q.2
      (memWrite s (toWord ((s.ix : Int) + offset)) v, some v)
    else
      let bit_number := (opcode &&& 0x38) >>> 3
      if opcode < 0x80 then
        let s := { s with flags := { s.flags with N := 0, H := 1 } }
        let s := { s with flags := { s.flags with
            Z := fbit ((memRead s (toWord ((s.ix : Int) + offset)) &&& (1 <<< bit_number)) = 0) } }
        let s := { s with flags := { s.flags with P := s.flags.Z } }
        let s := { s with flags := { s.flags with
            S := fbit (bit_number = 7 ∧ s.flags.Z = 0) } }
        (s, none)
      else if opcode < 0xc0 then
        let v := (memRead s (toWord ((s.ix : Int) + offset)) &&&
                   jsNot (1 <<< bit_number)) &&& 0xff
        (memWrite s (toWord ((s.ix : Int) + offset)) v, some v)
      else
        let v := memRead s (toWord ((s.ix : Int) + offset)) ||| (1 <<< bit_number)
        (memWrite s (toWord ((s.ix : Int) + offset)) v, some v)
  let s := sv.1
  let value := sv.2
  let s :=
    match value with
    | none => s
    | some v =>
      match opcode &&& 0x07 with
      | 0 => { s with b := v }
      | 1 => { s with c := v }
      | 2 => { s with d := v }
      | 3 => { s with e := v }
      | 4 => { s with h := v }
      | 5 => { s with l := v }
      | 6 => s
      | _ => { s with a := v }
  { s with cycle_counter := s.cycle_counter + cycle_counts_cb.getD opcode 0 + 8 }

/-- The DD opcode table (dd_instructions): none = no table entry, in
which case the prefix handler re-decodes the byte unprefixed. -/
def dd_instructions (opcode : Nat) (s : Z80State) : Option Z80State :=
  match opcode with
  | 0x09 => some (do_ix_add (s.c ||| (s.b <<< 8)) s)
  | 0x19 => some (do_ix_add (s.e ||| (s.d <<< 8)) s)
  | 0x21 => some (
      let s := { s with pc := (s.pc + 1) % 65536 }
      let s := { s with ix := memRead s s.pc }
      let s := { s with pc := (s.pc + 1) % 65536 }
      { s with ix := s.ix ||| (memRead s s.pc <<< 8) })
  | 0x22 => some (
      let q := fetch_word_operand s
      let address := q.1
      let s := q.2
      let s := memWrite s address (s.ix &&& 0xff)
      memWrite s ((address + 1) % 65536) ((s.ix >>> 8) &&& 0xff))
  | 0x23 => some { s with ix := (s.ix + 1) % 65536 }
  | 0x24 => some (let q := do_inc (s.ix >>> 8) s; let v := q.1; let s := q.2; { s with ix := (v <<< 8) ||| (s.ix &&& 0xff) })
  | 0x25 => some (let q := do_dec (s.ix >>> 8) s; let v := q.1; let s := q.2; { s with ix := (v <<< 8) ||| (s.ix &&& 0xff) })
  | 0x26 => some (
      let s := { s with pc := (s.pc + 1) % 65536 }
      { s with ix := (memRead s s.pc <<< 8) ||| (s.ix &&& 0xff) })
  | 0x29 => some (do_ix_add s.ix s)
  | 0x2a => some (
      let q := fetch_word_operand s
      let address := q.1
      let s := q.2
      let s := { s with ix := memRead s address }
      { s with ix := s.ix ||| (memRead s ((address + 1) % 65536) <<< 8) })
  | 0x2b => some { s with ix := toWord ((s.ix : Int) - 1) }
  | 0x2c => some (let q := do_inc (s.ix &&& 0xff) s; let v := q.1; let s := q.2; { s with ix := v ||| (s.ix &&& 0xff00) })
  | 0x2d => some (let q := do_dec (s.ix &&& 0xff) s; let v := q.1; let s := q.2; { s with ix := v ||| (s.ix &&& 0xff00) })
  | 0x2e => some (
      let s := { s with pc := (s.pc + 1) % 65536 }
      { s with ix := (memRead s s.pc &&& 0xff) ||| (s.ix &&& 0xff00) })
  | 0x34 => some (
      let q := fetch_offset s
      let offset := q.1
      let s := q.2
      let value := memRead s (toWord (offset + (s.ix : Int)))
      let q := do_inc value s
      let v := q.1
      let s := q.2
      memWrite s (toWord (offset + (s.ix : Int))) v)
  | 0x35 => some (
      let q := fetch_offset s
      let offset := q.1
      let s := q.2
      let value := memRead s (toWord (offset + (s.ix : Int)))
      let q := do_dec value s
      let v := q.1
      let s := q.2
      memWrite s (toWord (offset + (s.ix : Int))) v)
  | 0x36 => some (
      let q := fetch_offset s
      let offset := q.1
      let s := q.2
      let s := { s with pc := (s.pc + 1) % 65536 }
      memWrite s (toWord ((s.ix : Int) + offset)) (memRead s s.pc))
  | 0x39 => some (do_ix_add s.sp s)
  | 0x44 => some { s with b := (s.ix >>> 8) &&& 0xff }
  | 0x45 => some { s with b := s.ix &&& 0xff }
  | 0x46 => some (
      let q := fetch_offset s
      let offset := q.1
      let s := q.2
      { s with b := memRead s (toWord ((s.ix : Int) + offset)) })
  | 0x4c => some { s with c := (s.ix >>> 8) &&& 0xff }
  | 0x4d => some { s with c := s.ix &&& 0xff }
  | 0x4e => some (
      let q := fetch_offset s
      let offset := q.1
      let s := q.2
      { s with c := memRead s (toWord ((s.ix : Int) + offset)) })
  | 0x54 => some { s with d := (s.ix >>> 8) &&& 0xff }
  | 0x55 => some { s with d := s.ix &&& 0xff }
  | 0x56 => some (
      let q := fetch_offset s
      let offset := q.1
      let s := q.2
      { s with d := memRead s (toWord ((s.ix : Int) + offset)) })
  | 0x5c => some { s with e := (s.ix >>> 8) &&& 0xff }
  | 0x5d => some { s with e := s.ix &&& 0xff }
  | 0x5e => some (
      let q := fetch_offset s
      let offset := q.1
      let s := q.2
      { s with e := memRead s (toWord ((s.ix : Int) + offset)) })
  | 0x60 => some { s with ix := (s.ix &&& 0xff) ||| (s.b <<< 8) }
  | 0x61 => some { s with ix := (s.ix &&& 0xff) ||| (s.c <<< 8) }
  | 0x62 => some { s with ix := (s.ix &&& 0xff) ||| (s.d <<< 8) }
  | 0x63 => some { s with ix := (s.ix &&& 0xff) ||| (s.e <<< 8) }
  | 0x64 => some s
  | 0x65 => some { s with ix := (s.ix &&& 0xff) ||| ((s.ix &&& 0xff) <<< 8) }
  | 0x66 => some (
      let q := fetch_offset s
      let offset := q.1
      let s := q.2
      { s with h := memRead s (toWord ((s.ix : Int) + offset)) })
  | 0x67 => some { s with ix := (s.ix &&& 0xff) ||| (s.a <<< 8) }
  | 0x68 => some { s with ix := (s.ix &&& 0xff00) ||| s.b }
  | 0x69 => some { s with ix := (s.ix &&& 0xff00) ||| s.c }
  | 0x6a => some { s with ix := (s.ix &&& 0xff00) ||| s.d }
  | 0x6b => some { s with ix := (s.ix &&& 0xff00) ||| s.e }
  | 0x6c => some { s with ix := (s.ix &&& 0xff00) ||| (s.ix >>> 8) }
  | 0x6d => some s
  | 0x6e => some (
      let q := fetch_offset s
      let offset := q.1
      let s := q.2
      { s with l := memRead s (toWord ((s.ix : Int) + offset)) })
  | 0x6f => some { s with ix := (s.ix &&& 0xff00) ||| s.a }
  | 0x70 => some (
      let q := fetch_offset s
      let offset := q.1
      let s := q.2
      memWrite s (toWord ((s.ix : Int) + offset)) s.b)
  | 0x71 => some (
      let q := fetch_offset s
      let offset := q.1
      let s := q.2
      memWrite s (toWord ((s.ix : Int) + offset)) s.c)
  | 0x72 => some (
      let q := fetch_offset s
      let offset := q.1
      let s := q.2
      memWrite s (toWord ((s.ix : Int) + offset)) s.d)
  | 0x73 => some (
      let q := fetch_offset s
      let offset := q.1
      let s := q.2
      memWrite s (toWord ((s.ix : Int) + offset)) s.e)
  | 0x74 => some (
      let q := fetch_offset s
      let offset := q.1
      let s := q.2
      memWrite s (toWord ((s.ix : Int) + offset)) s.h)
  | 0x75 => some (
      let q := fetch_offset s
      let offset := q.1
      let s := q.2
      memWrite s (toWord ((s.ix : Int) + offset)) s.l)
  | 0x77 => some (
      let q := fetch_offset s
      let offset := q.1
      let s := q.2
      memWrite s (toWord ((s.ix : Int) + offset)) s.a)
  | 0x7c => some { s with a := (s.ix >>> 8) &&& 0xff }
  | 0x7d => some { s with a := s.ix &&& 0xff }
  | 0x7e => some (
      let q := fetch_offset s
      let offset := q.1
      let s := q.2
      { s with a := memRead s (toWord ((s.ix : Int) + offset)) })
  | 0x84 => some (do_add ((s.ix >>> 8) &&& 0xff) s)
  | 0x85 => some (do_add (s.ix &&& 0xff) s)
  | 0x86 => some (
      let q := fetch_offset s
      let offset := q.1
      let s := q.2
      do_add (memRead s (toWord ((s.ix : Int) + offset))) s)
  | 0x8c => some (do_adc ((s.ix >>> 8) &&& 0xff) s)
  | 0x8d => some (do_adc (s.ix &&& 0xff) s)
  | 0x8e => some (
      let q := fetch_offset s
      let offset := q.1
      let s := q.2
      do_adc (memRead s (toWord ((s.ix : Int) + offset))) s)
  | 0x94 => some (do_sub ((s.ix >>> 8) &&& 0xff) s)
  | 0x95 => some (do_sub (s.ix &&& 0xff) s)
  | 0x96 => some (
      let q := fetch_offset s
      let offset := q.1
      let s := q.2
      do_sub (memRead s (toWord ((s.ix : Int) + offset))) s)
  | 0x9c => some (do_sbc ((s.ix >>> 8) &&& 0xff) s)
  | 0x9d => some (do_sbc (s.ix &&& 0xff) s)
  | 0x9e => some (
      let q := fetch_offset s
      let offset := q.1
      let s := q.2
      do_sbc (memRead s (toWord ((s.ix : Int) + offset))) s)
  | 0xa4 => some (do_and ((s.ix >>> 8) &&& 0xff) s)
  | 0xa5 => some (do_and (s.ix &&& 0xff) s)
  | 0xa6 => some (
      let q := fetch_offset s
      let offset := q.1
      let s := q.2
      do_and (memRead s (toWord ((s.ix : Int) + offset))) s)
  | 0xac => some (do_xor ((s.ix >>> 8) &&& 0xff) s)
  | 0xad => some (do_xor (s.ix &&& 0xff) s)
  | 0xae => some (
      let q := fetch_offset s
      let offset := q.1
      let s := q.2
      do_xor (memRead s (toWord ((s.ix : Int) + offset))) s)
  | 0xb4 => some (do_or ((s.ix >>> 8) &&& 0xff) s)
  | 0xb5 => some (do_or (s.ix &&& 0xff) s)
  | 0xb6 => some (
      let q := fetch_offset s
      let offset := q.1
      let s := q.2
      do_or (memRead s (toWord ((s.ix : Int) + offset))) s)
  | 0xbc => some (do_cp ((s.ix >>> 8) &&& 0xff) s)
  | 0xbd => some (do_cp (s.ix &&& 0xff) s)
  | 0xbe => some (
      let q := fetch_offset s
      let offset := q.1
      let s := q.2
      do_cp (memRead s (toWord ((s.ix : Int) + offset))) s)
  | 0xcb => some (dd_cb_instruction s)
  | 0xe1 => some (let q := pop_word s; let w := q.1; let s := q.2; { s with ix := w })
  | 0xe3 => some (
      let temp := s.ix
      let s := { s with ix := memRead s s.sp }
      let s := { s with ix := s.ix ||| (memRead s ((s.sp + 1) % 65536) <<< 8) }
      let s := memWrite s s.sp (temp &&& 0xff)
      memWrite s ((s.sp + 1) % 65536) ((temp >>> 8) &&& 0xff))
  | 0xe5 => some (push_word s.ix s)
  | 0xe9 => some { s with pc := toWord ((s.ix : Int) - 1) }
  | 0xf9 => some { s with sp := s.ix }
  | _ => none

/-- The CB-prefix handler (instructions[0xcb]): direct decode of
shift/rotate, BIT, RES and SET on the eight register codes. -/
def cb_prefix_instruction (s : Z80State) : Z80State :=
  let s := { s with r := bumpR s.r }
  let s := { s with pc := (s.pc + 1) % 65536 }
  let opcode := memRead s s.pc
  let bit_number := (opcode &&& 0x38) >>> 3
  let reg_code := opcode &&& 0x07
  let s :=
    if opcode < 0x40 then
      match reg_code with
      | 0 => let q := shift_op bit_number s.b s; let v := q.1; let s := q.2; { s with b := v }
      | 1 => let q := shift_op bit_number s.c s; let v := q.1; let s := q.2; { s with c := v }
      | 2 => let q := shift_op bit_number s.d s; let v := q.1; let s := q.2; { s with d := v }
      | 3 => let q := shift_op bit_number s.e s; let v := q.1; let s := q.2; { s with e := v }
      | 4 => let q := shift_op bit_number s.h s; let v := q.1; let s := q.2; { s with h := v }
      | 5 => let q := shift_op bit_number s.l s; let v := q.1; let s := q.2; { s with l := v }
      | 6 =>
        let q := shift_op bit_number (memRead s (s.l ||| (s.h <<< 8))) s
        let v := q.1
        let s := q.2
        memWrite s (s.l ||| (s.h <<< 8)) v
      | _ => let q := shift_op bit_number s.a s; let v := q.1; let s := q.2; { s with a := v }
    else if opcode < 0x80 then
      let s := { s with flags := { s.flags with Z :=
        match reg_code with
        | 0 => fbit ((s.b &&& (1 <<< bit_number)) = 0)
        | 1 => fbit ((s.c &&& (1 <<< bit_number)) = 0)
        | 2 => fbit ((s.d &&& (1 <<< bit_number)) = 0)
        | 3 => fbit ((s.e &&& (1 <<< bit_number)) = 0)
        | 4 => fbit ((s.h &&& (1 <<< bit_number)) = 0)
        | 5 => fbit ((s.l &&& (1 <<< bit_number)) = 0)
        | 6 => fbit ((memRead s (s.l ||| (s.h <<< 8)) &&& (1 <<< bit_number)) = 0)
        | _ => fbit ((s.a &&& (1 <<< bit_number)) = 0) } }
      let s := { s with flags := { s.flags with N := 0, H := 1 } }
      let s := { s with flags := { s.flags with P := s.flags.Z } }
      { s with flags := { s.flags with
          S := fbit (bit_number = 7 ∧ s.flags.Z = 0)
          Y := fbit (bit_number = 5 ∧ s.flags.Z = 0)
          X := fbit (bit_number = 3 ∧ s.flags.Z = 0) } }
    else if opcode < 0xc0 then
      match reg_code with
      | 0 => { s with b := s.b &&& (0xff &&& jsNot (1 <<< bit_number)) }
      | 1 => { s with c := s.c &&& (0xff &&& jsNot (1 <<< bit_number)) }
      | 2 => { s with d := s.d &&& (0xff &&& jsNot (1 <<< bit_number)) }
      | 3 => { s with e := s.e &&& (0xff &&& jsNot (1 <<< bit_number)) }
      | 4 => { s with h := s.h &&& (0xff &&& jsNot (1 <<< bit_number)) }
      | 5 => { s with l := s.l &&& (0xff &&& jsNot (1 <<< bit_number)) }
      | 6 => memWrite s (s.l ||| (s.h <<< 8))
               (memRead s (s.l ||| (s.h <<< 8)) &&& jsNot (1 <<< bit_number))
      | _ => { s with a := s.a &&& (0xff &&& jsNot (1 <<< bit_number)) }
    else
      match reg_code with
      | 0 => { s with b := s.b ||| (1 <<< bit_number) }
      | 1 => { s with c := s.c ||| (1 <<< bit_number) }
      | 2 => { s with d := s.d ||| (1 <<< bit_number) }
      | 3 => { s with e := s.e ||| (1 <<< bit_number) }
      | 4 => { s with h := s.h ||| (1 <<< bit_number) }
      | 5 => { s with l := s.l ||| (1 <<< bit_number) }
      | 6 => memWrite s (s.l ||| (s.h <<< 8))
               (memRead s (s.l ||| (s.h <<< 8)) ||| (1 <<< bit_number))
      | _ => { s with a := s.a ||| (1 <<< bit_number) }
  { s with cycle_counter := s.cycle_counter + cycle_counts_cb.getD opcode 0 }

/-- The DD-prefix handler (instructions[0xdd]): extra R increment, then
either a DD-table instruction or, when the table has no entry, back the
PC up by one and charge one NOP so the byte is re-decoded unprefixed. -/
def dd_prefix_instruction (s : Z80State) : Z80State :=
  let s := { s with r := bumpR s.r }
  let s := { s with pc := (s.pc + 1) % 65536 }
  let opcode := memRead s s.pc
  match dd_instructions opcode s with
  | some s2 => { s2 with cycle_counter := s2.cycle_counter + cycle_counts_dd.getD opcode 0 }
  | none =>
    let s := { s with pc := toWord ((s.pc : Int) - 1) }
    { s with cycle_counter := s.cycle_counter + cycle_counts.getD 0 0 }

/-- The FD-prefix handler (instructions[0xfd]): as DD, but IY is swapped
into IX around the DD handler and the result swapped back. -/
def fd_prefix_instruction (s : Z80State) : Z80State :=
  let s := { s with r := bumpR s.r }
  let s := { s with pc := (s.pc + 1) % 65536 }
  let opcode := memRead s s.pc
  let temp := s.ix
  match dd_instructions opcode { s with ix := s.iy } with
  | some s2 =>
    let s2 := { s2 with iy := s2.ix, ix := temp }
    { s2 with cycle_counter := s2.cycle_counter + cycle_counts_dd.getD opcode 0 }
  | none =>
    let s := { s with pc := toWord ((s.pc : Int) - 1) }
    { s with cycle_counter := s.cycle_counter + cycle_counts.getD 0 0 }

/-- The ED-prefix handler (instructions[0xed]): extra R increment, then
either an ED-table instruction or, when the table has no entry, a
two-byte NOP. -/
def ed_prefix_instruction (s : Z80State) : Z80State :=
  let s := { s with r := bumpR s.r }
  let s := { s with pc := (s.pc + 1) % 65536 }
  let opcode := memRead s s.pc
  match ed_instructions opcode s with
  | some s2 => { s2 with cycle_counter := s2.cycle_counter + cycle_counts_ed.getD opcode 0 }
  | none => { s with cycle_counter := s.cycle_counter + cycle_counts.getD 0 0 }

/-- DAA (instructions[0x27]). -/
def daa_instruction (s : Z80State) : Z80State :=
  let temp : Int := s.a
  let temp :=
    if s.flags.N = 0 then
      let temp := if s.flags.H ≠ 0 ∨ (s.a &&& 0x0f) > 9 then temp + 0x06 else temp
      if s.flags.C ≠ 0 ∨ s.a > 0x99 then temp + 0x60 else temp
    else
      let temp := if s.flags.H ≠ 0 ∨ (s.a &&& 0x0f) > 9 then temp - 0x06 else temp
      if s.flags.C ≠ 0 ∨ s.a > 0x99 then temp - 0x60 else temp
  let s := { s with flags := { s.flags with
      S := fbit (iand temp 0x80 ≠ 0)
      Z := fbit (iand temp 0xff = 0)
      H := fbit (((s.a &&& 0x10) ^^^ iand temp 0x10) ≠ 0)
      P := get_parity (iand temp 0xff)
      C := fbit (s.flags.C ≠ 0 ∨ s.a > 0x99) } }
  let s := { s with a := iand temp 0xff }
  update_xy_flags s.a s

/-- The primary instruction table (this.instructions): everything that
the decoder does not handle directly (the unprefixed opcodes outside
0x40..0xbf). -/
def instructions (opcode : Nat) (s : Z80State) : Z80State :=
  match opcode with
  | 0x00 => s
  | 0x01 =>
    let s := { s with pc := (s.pc + 1) % 65536 }
    let s := { s with c := memRead s s.pc }
    let s := { s with pc := (s.pc + 1) % 65536 }
    { s with b := memRead s s.pc }
  | 0x02 => memWrite s (s.c ||| (s.b <<< 8)) s.a
  | 0x03 =>
    let result := (s.c ||| (s.b <<< 8)) + 1
    { s with c := result &&& 0xff, b := (result &&& 0xff00) >>> 8 }
  | 0x04 => let q := do_inc s.b s; let v := q.1; let s := q.2; { s with b := v }
  | 0x05 => let q := do_dec s.b s; let v := q.1; let s := q.2; { s with b := v }
  | 0x06 =>
    let s := { s with pc := (s.pc + 1) % 65536 }
    { s with b := memRead s s.pc }
  | 0x07 =>
    let temp_s := s.flags.S
    let temp_z := s.flags.Z
    let temp_p := s.flags.P
    let q := do_rlc s.a s
    let v := q.1
    let s := q.2
    let s := { s with a := v }
    { s with flags := { s.flags with S := temp_s, Z := temp_z, P := temp_p } }
  | 0x08 =>
    let temp := s.a
    let s := { s with a := s.a_alt, a_alt := temp }
    let temp := get_flags_register s
    let s := set_flags_register (get_flags_alt s) s
    set_flags_alt temp s
  | 0x09 => do_hl_add (s.c ||| (s.b <<< 8)) s
  | 0x0a => { s with a := memRead s (s.c ||| (s.b <<< 8)) }
  | 0x0b =>
    let result : Int := ((s.c ||| (s.b <<< 8) : Nat) : Int) - 1
    { s with c := iand result 0xff, b := (iand result 0xff00) >>> 8 }
  | 0x0c => let q := do_inc s.c s; let v := q.1; let s := q.2; { s with c := v }
  | 0x0d => let q := do_dec s.c s; let v := q.1; let s := q.2; { s with c := v }
  | 0x0e =>
    let s := { s with pc := (s.pc + 1) % 65536 }
    { s with c := memRead s s.pc }
  | 0x0f =>
    let temp_s := s.flags.S
    let temp_z := s.flags.Z
    let temp_p := s.flags.P
    let q := do_rrc s.a s
    let v := q.1
    let s := q.2
    let s := { s with a := v }
    { s with flags := { s.flags with S := temp_s, Z := temp_z, P := temp_p } }
  | 0x10 =>
    let s := { s with b := iand ((s.b : Int) - 1) 0xff }
    do_conditional_relative_jump (s.b ≠ 0) s
  | 0x11 =>
    let s := { s with pc := (s.pc + 1) % 65536 }
    let s := { s with e := memRead s s.pc }
    let s := { s with pc := (s.pc + 1) % 65536 }
    { s with d := memRead s s.pc }
  | 0x12 => memWrite s (s.e ||| (s.d <<< 8)) s.a
  | 0x13 =>
    let result := (s.e ||| (s.d <<< 8)) + 1
    { s with e := result &&& 0xff, d := (result &&& 0xff00) >>> 8 }
  | 0x14 => let q := do_inc s.d s; let v := q.1; let s := q.2; { s with d := v }
  | 0x15 => let q := do_dec s.d s; let v := q.1; let s := q.2; { s with d := v }
  | 0x16 =>
    let s := { s with pc := (s.pc + 1) % 65536 }
    { s with d := memRead s s.pc }
  | 0x17 =>
    let temp_s := s.flags.S
    let temp_z := s.flags.Z
    let temp_p := s.flags.P
    let q := do_rl s.a s
    let v := q.1
    let s := q.2
    let s := { s with a := v }
    { s with flags := { s.flags with S := temp_s, Z := temp_z, P := temp_p } }
  | 0x18 =>
    let offset := get_signed_offset_byte (memRead s ((s.pc + 1) % 65536))
    { s with pc := toWord ((s.pc : Int) + offset + 1) }
  | 0x19 => do_hl_add (s.e ||| (s.d <<< 8)) s
  | 0x1a => { s with a := memRead s (s.e ||| (s.d <<< 8)) }
  | 0x1b =>
    let result : Int := ((s.e ||| (s.d <<< 8) : Nat) : Int) - 1
    { s with e := iand result 0xff, d := (iand result 0xff00) >>> 8 }
  | 0x1c => let q := do_inc s.e s; let v := q.1; let s := q.2; { s with e := v }
  | 0x1d => let q := do_dec s.e s; let v := q.1; let s := q.2; { s with e := v }
  | 0x1e =>
    let s := { s with pc := (s.pc + 1) % 65536 }
    { s with e := memRead s s.pc }
  | 0x1f =>
    let temp_s := s.flags.S
    let temp_z := s.flags.Z
    let temp_p := s.flags.P
    let q := do_rr s.a s
    let v := q.1
    let s := q.2
    let s := { s with a := v }
    { s with flags := { s.flags with S := temp_s, Z := temp_z, P := temp_p } }
  | 0x20 => do_conditional_relative_jump (s.flags.Z = 0) s
  | 0x21 =>
    let s := { s with pc := (s.pc + 1) % 65536 }
    let s := { s with l := memRead s s.pc }
    let s := { s with pc := (s.pc + 1) % 65536 }
    { s with h := memRead s s.pc }
  | 0x22 =>
    let q := fetch_word_operand s
    let address := q.1
    let s := q.2
    let s := memWrite s address s.l
    memWrite s ((address + 1) % 65536) s.h
  | 0x23 =>
    let result := (s.l ||| (s.h <<< 8)) + 1
    { s with l := result &&& 0xff, h := (result &&& 0xff00) >>> 8 }
  | 0x24 => let q := do_inc s.h s; let v := q.1; let s := q.2; { s with h := v }
  | 0x25 => let q := do_dec s.h s; let v := q.1; let s := q.2; { s with h := v }
  | 0x26 =>
    let s := { s with pc := (s.pc + 1) % 65536 }
    { s with h := memRead s s.pc }
  | 0x27 => daa_instruction s
  | 0x28 => do_conditional_relative_jump (s.flags.Z ≠ 0) s
  | 0x29 => do_hl_add (s.l ||| (s.h <<< 8)) s
  | 0x2a =>
    let q := fetch_word_operand s
    let address := q.1
    let s := q.2
    let s := { s with l := memRead s address }
    { s with h := memRead s ((address + 1) % 65536) }
  | 0x2b =>
    let result : Int := ((s.l ||| (s.h <<< 8) : Nat) : Int) - 1
    { s with l := iand result 0xff, h := (iand result 0xff00) >>> 8 }
  | 0x2c => let q := do_inc s.l s; let v := q.1; let s := q.2; { s with l := v }
  | 0x2d => let q := do_dec s.l s; let v := q.1; let s := q.2; { s with l := v }
  | 0x2e =>
    let s := { s with pc := (s.pc + 1) % 65536 }
    { s with l := memRead s s.pc }
  | 0x2f =>
    let s := { s with a := jsNot s.a &&& 0xff }
    let s := { s with flags := { s.flags with N := 1, H := 1 } }
    update_xy_flags s.a s
  | 0x30 => do_conditional_relative_jump (s.flags.C = 0) s
  | 0x31 =>
    let s := { s with sp := memRead s ((s.pc + 1) % 65536) |||
                            (memRead s ((s.pc + 2) % 65536) <<< 8) }
    { s with pc := (s.pc + 2) % 65536 }
  | 0x32 =>
    let q := fetch_word_operand s
    let address := q.1
    let s := q.2
    memWrite s address s.a
  | 0x33 => { s with sp := (s.sp + 1) % 65536 }
  | 0x34 =>
    let address := s.l ||| (s.h <<< 8)
    let q := do_inc (memRead s address) s
    let v := q.1
    let s := q.2
    memWrite s address v
  | 0x35 =>
    let address := s.l ||| (s.h <<< 8)
    let q := do_dec (memRead s address) s
    let v := q.1
    let s := q.2
    memWrite s address v
  | 0x36 =>
    let s := { s with pc := (s.pc + 1) % 65536 }
    memWrite s (s.l ||| (s.h <<< 8)) (memRead s s.pc)
  | 0x37 =>
    let s := { s with flags := { s.flags with N := 0, H := 0, C := 1 } }
    update_xy_flags s.a s
  | 0x38 => do_conditional_relative_jump (s.flags.C ≠ 0) s
  | 0x39 => do_hl_add s.sp s
  | 0x3a =>
    let q := fetch_word_operand s
    let address := q.1
    let s := q.2
    { s with a := memRead s address }
  | 0x3b => { s with sp := toWord ((s.sp : Int) - 1) }
  | 0x3c => let q := do_inc s.a s; let v := q.1; let s := q.2; { s with a := v }
  | 0x3d => let q := do_dec s.a s; let v := q.1; let s := q.2; { s with a := v }
  | 0x3e =>
    let s := { s with a := memRead s ((s.pc + 1) % 65536) }
    { s with pc := (s.pc + 1) % 65536 }
  | 0x3f =>
    let s := { s with flags := { s.flags with N := 0, H := s.flags.C } }
    let s := { s with flags := { s.flags with C := if s.flags.C ≠ 0 then 0 else 1 } }
    update_xy_flags s.a s
  | 0xc0 => do_conditional_return (s.flags.Z = 0) s
  | 0xc1 =>
    let q := pop_word s
    let w := q.1
    let s := q.2
    { s with c := w &&& 0xff, b := (w &&& 0xff00) >>> 8 }
  | 0xc2 => do_conditional_absolute_jump (s.flags.Z = 0) s
  | 0xc3 =>
    let s := { s with pc := memRead s ((s.pc + 1) % 65536) |||
                            (memRead s ((s.pc + 2) % 65536) <<< 8) }
    { s with pc := toWord ((s.pc : Int) - 1) }
  | 0xc4 => do_conditional_call (s.flags.Z = 0) s
  | 0xc5 => push_word (s.c ||| (s.b <<< 8)) s
  | 0xc6 =>
    let s := { s with pc := (s.pc + 1) % 65536 }
    do_add (memRead s s.pc) s
  | 0xc7 => do_reset 0x00 s
  | 0xc8 => do_conditional_return (s.flags.Z ≠ 0) s
  | 0xc9 =>
    let q := pop_word s
    let w := q.1
    let s := q.2
    { s with pc := toWord ((w : Int) - 1) }
  | 0xca => do_conditional_absolute_jump (s.flags.Z ≠ 0) s
  | 0xcb => cb_prefix_instruction s
  | 0xcc => do_conditional_call (s.flags.Z ≠ 0) s
  | 0xcd =>
    let s := push_word ((s.pc + 3) % 65536) s
    let s := { s with pc := memRead s ((s.pc + 1) % 65536) |||
                            (memRead s ((s.pc + 2) % 65536) <<< 8) }
    { s with pc := toWord ((s.pc : Int) - 1) }
  | 0xce =>
    let s := { s with pc := (s.pc + 1) % 65536 }
    do_adc (memRead s s.pc) s
  | 0xcf => do_reset 0x08 s
  | 0xd0 => do_conditional_return (s.flags.C = 0) s
  | 0xd1 =>
    let q := pop_word s
    let w := q.1
    let s := q.2
    { s with e := w &&& 0xff, d := (w &&& 0xff00) >>> 8 }
  | 0xd2 => do_conditional_absolute_jump (s.flags.C = 0) s
  | 0xd3 =>
    let s := { s with pc := (s.pc + 1) % 65536 }
    ioWrite s ((s.a <<< 8) ||| memRead s s.pc) s.a
  | 0xd4 => do_conditional_call (s.flags.C = 0) s
  | 0xd5 => push_word (s.e ||| (s.d <<< 8)) s
  | 0xd6 =>
    let s := { s with pc := (s.pc + 1) % 65536 }
    do_sub (memRead s s.pc) s
  | 0xd7 => do_reset 0x10 s
  | 0xd8 => do_conditional_return (s.flags.C ≠ 0) s
  | 0xd9 =>
    let s := { s with b := s.b_alt, b_alt := s.b }
    let s := { s with c := s.c_alt, c_alt := s.c }
    let s := { s with d := s.d_alt, d_alt := s.d }
    let s := { s with e := s.e_alt, e_alt := s.e }
    let s := { s with h := s.h_alt, h_alt := s.h }
    { s with l := s.l_alt, l_alt := s.l }
  | 0xda => do_conditional_absolute_jump (s.flags.C ≠ 0) s
  | 0xdb =>
    let s := { s with pc := (s.pc + 1) % 65536 }
    { s with a := ioRead s ((s.a <<< 8) ||| memRead s s.pc) }
  | 0xdc => do_conditional_call (s.flags.C ≠ 0) s
  | 0xdd => dd_prefix_instruction s
  | 0xde =>
    let s := { s with pc := (s.pc + 1) % 65536 }
    do_sbc (memRead s s.pc) s
  | 0xdf => do_reset 0x18 s
  | 0xe0 => do_conditional_return (s.flags.P = 0) s
  | 0xe1 =>
    let q := pop_word s
    let w := q.1
    let s := q.2
    { s with l := w &&& 0xff, h := (w &&& 0xff00) >>> 8 }
  | 0xe2 => do_conditional_absolute_jump (s.flags.P = 0) s
  | 0xe3 =>
    let temp := memRead s s.sp
    let s := memWrite s s.sp s.l
    let s := { s with l := temp }
    let temp := memRead s ((s.sp + 1) % 65536)
    let s := memWrite s ((s.sp + 1) % 65536) s.h
    { s with h := temp }
  | 0xe4 => do_conditional_call (s.flags.P = 0) s
  | 0xe5 => push_word (s.l ||| (s.h <<< 8)) s
  | 0xe6 =>
    let s := { s with pc := (s.pc + 1) % 65536 }
    do_and (memRead s s.pc) s
  | 0xe7 => do_reset 0x20 s
  | 0xe8 => do_conditional_return (s.flags.P ≠ 0) s
  | 0xe9 =>
    let s := { s with pc := s.l ||| (s.h <<< 8) }
    { s with pc := toWord ((s.pc : Int) - 1) }
  | 0xea => do_conditional_absolute_jump (s.flags.P ≠ 0) s
  | 0xeb =>
    let s := { s with d := s.h, h := s.d }
    { s with e := s.l, l := s.e }
  | 0xec => do_conditional_call (s.flags.P ≠ 0) s
  | 0xed => ed_prefix_instruction s
  | 0xee =>
    let s := { s with pc := (s.pc + 1) % 65536 }
    do_xor (memRead s s.pc) s
  | 0xef => do_reset 0x28 s
  | 0xf0 => do_conditional_return (s.flags.S = 0) s
  | 0xf1 =>
    let q := pop_word s
    let w := q.1
    let s := q.2
    let s := set_flags_register (w &&& 0xff) s
    { s with a := (w &&& 0xff00) >>> 8 }
  | 0xf2 => do_conditional_absolute_jump (s.flags.S = 0) s
  | 0xf3 => { s with do_delayed_di := true }
  | 0xf4 => do_conditional_call (s.flags.S = 0) s
  | 0xf5 => push_word (get_flags_register s ||| (s.a <<< 8)) s
  | 0xf6 =>
    let s := { s with pc := (s.pc + 1) % 65536 }
    do_or (memRead s s.pc) s
  | 0xf7 => do_reset 0x30 s
  | 0xf8 => do_conditional_return (s.flags.S ≠ 0) s
  | 0xf9 => { s with sp := s.l ||| (s.h <<< 8) }
  | 0xfa => do_conditional_absolute_jump (s.flags.S ≠ 0) s
  | 0xfb => { s with do_delayed_ei := true }
  | 0xfc => do_conditional_call (s.flags.S ≠ 0) s
  | 0xfd => fd_prefix_instruction s
  | 0xfe =>
    let s := { s with pc := (s.pc + 1) % 65536 }
    do_cp (memRead s s.pc) s
  | 0xff => do_reset 0x38 s
  | _ => s

/-- get_operand: the source operand of the uniform LD and ALU ranges,
selected by the low 3 bits of the opcode. -/
def get_operand (opcode : Nat) (s : Z80State) : Nat :=
  match opcode &&& 0x07 with
  | 0 => s.b
  | 1 => s.c
  | 2 => s.d
  | 3 => s.e
  | 4 => s.h
  | 5 => s.l
  | 6 => memRead s (s.l ||| (s.h <<< 8))
  | _ => s.a

/-- decode_instruction: HALT, the uniform LD range, the uniform ALU
range, or the instruction table; then add the base cycle count. -/
def decode_instruction (opcode : Nat) (s : Z80State) : Z80State :=
  let s :=
    if opcode = 0x76 then
      { s with halted := true, iff1 := 1, iff2 := 1 }
    else if 0x40 ≤ opcode ∧ opcode < 0x80 then
      let operand := get_operand opcode s
      match (opcode &&& 0x38) >>> 3 with
      | 0 => { s with b := operand }
      | 1 => { s with c := operand }
      | 2 => { s with d := operand }
      | 3 => { s with e := operand }
      | 4 => { s with h := operand }
      | 5 => { s with l := operand }
      | 6 => memWrite s (s.l ||| (s.h <<< 8)) operand
      | _ => { s with a := operand }
    else if 0x80 ≤ opcode ∧ opcode < 0xc0 then
      alu_op ((opcode &&& 0x38) >>> 3) (get_operand opcode s) s
    else
      instructions opcode s
  { s with cycle_counter := s.cycle_counter + cycle_counts.getD opcode 0 }

/-- run_instruction: when halted, return 1 and leave the state alone;
otherwise clear a pending delayed DI/EI, auto-increment R, decode the
byte at PC, advance PC, apply the delayed DI/EI, and return the cycle
count (clearing the counter). -/
def run_instruction (s : Z80State) : Nat × Z80State :=
  if s.halted then (1, s)
  else
    let doing_delayed_di := s.do_delayed_di
    let doing_delayed_ei := s.do_delayed_ei ∧ ¬s.do_delayed_di
    let s :=
      if s.do_delayed_di then { s with do_delayed_di := false }
      else if s.do_delayed_ei then { s with do_delayed_ei := false }
      else s
    let s := { s with r := bumpR s.r }
    let opcode := memRead s s.pc
    let s := decode_instruction opcode s
    let s := { s with pc := (s.pc + 1) % 65536 }
    let s :=
      if doing_delayed_di then { s with iff1 := 0, iff2 := 0 }
      else if doing_delayed_ei then { s with iff1 := 1, iff2 := 1 }
      else s
    (s.cycle_counter, { s with cycle_counter := 0 })

/-- The power-on state of class Z80 (its field initializers), over a
given backing memory and I/O read environment. -/
def initZ80 (mem io_in : Nat → Nat) : Z80State :=
  { a := 0, b := 0, c := 0, d := 0, e := 0, h := 0, l := 0
    a_alt := 0, b_alt := 0, c_alt := 0, d_alt := 0, e_alt := 0, h_alt := 0, l_alt := 0
    ix := 0, iy := 0, i := 0, r := 0, sp := 0xdff0, pc := 0
    flags := { S := 0, Z := 0, Y := 0, H := 0, X := 0, P := 0, N := 0, C := 0 }
    flags_alt := { S := 0, Z := 0, Y := 0, H := 0, X := 0, P := 0, N := 0, C := 0 }
    imode := 0, iff1 := 0, iff2 := 0
    halted := false, do_delayed_di := false, do_delayed_ei := false
    cycle_counter := 0
    mem := mem, io_in := io_in, io_out := [] }

/-! ## The zat harness (src/src/zat.ts) -/

/-- An address argument: a number or a symbol name (Zat accepts both). -/
inductive AddrArg where
  | num (n : Nat)
  | sym (name : String)
  deriving Repr, DecidableEq

/-- JavaScript toUpperCase, character by character (the computable form
of String.toUpper). -/
def jsToUpper (s0 : String) : String := String.mk (s0.data.map Char.toUpper)

/-- Zat.getAddress: a number resolves to itself; a string is looked up
case-insensitively (the symbol table is upper-case).  A missing symbol
yields the JavaScript value undefined, modelled as none — the source
returns it without raising anything. -/
def getAddress (symbols : List (String × Nat)) : AddrArg → Option Nat
  | AddrArg.num n => some n
  | AddrArg.sym name => symbols.lookup (jsToUpper name)

/-- Modelled from the spec: the get_address behaviour the specification
describes for a missing symbol — fail immediately with the message
"Symbol X not found" carrying the offending name.  This definition does
not exist in the source; it is the comparison point for claim C4. -/
def getAddressSpec (symbols : List (String × Nat)) (name : String) : Except String Nat :=
  match symbols.lookup (jsToUpper name) with
  | some addr => Except.ok addr
  | none => Except.error ("Symbol " ++ name ++ " not found")

/-- The fields of Zat.run's runOptions that the loop reads.  breakAt is
modelled after resolution through getAddress: a missing symbol resolves
to undefined, which compares unequal to every PC, i.e. none. -/
structure RunOptions where
  steps : Option Nat
  breakAt : Option Nat
  call : Bool

/-- The while-guard of Zat.run, in source order: not halted, step budget
left, PC not at breakAt, the onStep hook (when set) returning falsy, and
not (call mode and SP = entry SP + 2).  Note the source compares against
startSp + 2 without any mod-65536 reduction, and checks no property of
the last executed instruction. -/
def run_while_cond (callOpt : Bool) (startSp : Nat) (breakAt : Option Nat)
    (onStep : Option (Nat → Bool)) (steps count : Nat) (s : Z80State) : Bool :=
  !s.halted && decide (count < steps) &&
  (match breakAt with
   | some x => decide (s.pc ≠ x)
   | none => true) &&
  (match onStep with
   | some f => !f s.pc
   | none => true) &&
  !(callOpt && decide (s.sp = startSp + 2))

/-- The body of Zat.run's while loop, with explicit fuel.  The fuel is
initialised to the step budget, which the guard's count < steps conjunct
makes sufficient: the loop can never want more iterations than steps. -/
def zat_run_loop (fuel : Nat) (callOpt : Bool) (startSp : Nat) (breakAt : Option Nat)
    (onStep : Option (Nat → Bool)) (steps : Nat) (count tStates : Nat) (s : Z80State) :
    Nat × Nat × Z80State :=
  match fuel with
  | 0 => (count, tStates, s)
  | fuel + 1 =>
    if run_while_cond callOpt startSp breakAt onStep steps count s then
      let q := run_instruction s
      let t := q.1
      let s := q.2
      zat_run_loop fuel callOpt startSp breakAt onStep steps (count + 1) (tStates + t) s
    else (count, tStates, s)

/-- Zat.run: capture the entry SP, optionally set PC to the (resolved)
start address, default the step budget to 10,000,000, clear halted, and
loop.  Returns (instructions executed, T-states, final state). -/
def zat_run (s : Z80State) (onStep : Option (Nat → Bool)) (start : Option Nat)
    (opts : RunOptions) : Nat × Nat × Z80State :=
  let startSp := s.sp
  let s := match start with
           | some p => { s with pc := p }
           | none => s
  let steps := opts.steps.getD 10000000
  let s := { s with halted := false }
  zat_run_loop steps opts.call startSp opts.breakAt onStep steps 0 0 s

/-! ## The interrupt entry point (Z80.interrupt), with the core object

The Z80 constructor demands a core with mem_read, mem_write, io_read and
io_write.  No core in the repository — neither the one Zat builds
(src/src/zat.ts lines 44-51) nor the one z80test.ts builds — defines a
member called read_mem_byte, yet the mode-2 branch of Z80.interrupt
calls this.core.read_mem_byte.  Calling a missing member raises a
TypeError in JavaScript, so interrupt is embedded into Except, with the
missing member recorded by this constant. -/

/-- Whether the core object supplies a read_mem_byte member: no caller
in the repository does. -/
def core_provides_read_mem_byte : Bool := false

/-- Z80.interrupt, with the raising mode-2 memory access made explicit:
ok = the JavaScript function returns, error = it throws. -/
def interruptE (s : Z80State) (non_maskable : Bool) (data : Nat) :
    Except String Z80State :=
  if non_maskable then
    let s := { s with r := bumpR s.r }
    let s := { s with halted := false }
    let s := { s with iff2 := s.iff1 }
    let s := { s with iff1 := 0 }
    let s := push_word s.pc s
    Except.ok { s with pc := 0x66, cycle_counter := s.cycle_counter + 11 }
  else if s.iff1 ≠ 0 then
    let s := { s with r := bumpR s.r }
    let s := { s with halted := false, iff1 := 0, iff2 := 0 }
    if s.imode = 0 then
      let s := decode_instruction data s
      Except.ok { s with cycle_counter := s.cycle_counter + 2 }
    else if s.imode = 1 then
      let s := push_word s.pc s
      Except.ok { s with pc := 0x38, cycle_counter := s.cycle_counter + 13 }
    else if s.imode = 2 then
      if core_provides_read_mem_byte then
        let s := push_word s.pc s
        let vector_address := (s.i <<< 8) ||| data
        let s := { s with pc := memRead s vector_address |||
                              (memRead s ((vector_address + 1) % 65536) <<< 8) }
        Except.ok { s with cycle_counter := s.cycle_counter + 19 }
      else
        Except.error "TypeError: this.core.read_mem_byte is not a function"
    else Except.ok s
  else Except.ok s

/-! ## The I/O spies (src/src/io_spies.ts) -/

/-- The second element of a spy expectation tuple: a single byte, a
string (each UTF-16 code unit is one byte of the sub-sequence) or an
array of bytes. -/
inductive SpyVal where
  | byte (n : Nat)
  | str (text : String)
  | seq (bytes : List Nat)
  deriving Repr, DecidableEq

/-- stringToBytes from zat.ts: the char codes of the string. -/
def stringToBytes (str : String) : List Nat := str.data.map Char.toNat

/-- ReturnValuesSpy state: the scripted values (already normalised to a
list of tuples by the constructor), the phase index, the sub-sequence
position and cache, the finished flag and the ignoreWrites option. -/
structure ReturnValuesSpy where
  values : List (AddrArg × SpyVal)
  idx : Nat
  subIndex : Nat
  subValues : List Nat
  finished : Bool
  ignoreWrites : Bool
  deriving Repr, DecidableEq

/-- ExpectValuesSpy state (mirror of ReturnValuesSpy for writes). -/
structure ExpectValuesSpy where
  values : List (AddrArg × SpyVal)
  idx : Nat
  subIndex : Nat
  subValues : List Nat
  finished : Bool
  ignoreReads : Bool
  deriving Repr, DecidableEq

/-- ReturnValuesSpy.onRead.  The result is none when the JavaScript code
would throw (reading past the scripted values destructures undefined);
otherwise some (returned value, new spy state, port-assertion outcome).
The returned value is itself an Option because an exhausted sub-sequence
would yield the JavaScript value undefined.  The single Bool is the
outcome of the one expect(port & 0xff).toBe(resolved expected port)
assertion the function performs. -/
def returnValuesOnRead (symbols : List (String × Nat)) (spy : ReturnValuesSpy)
    (port : Nat) : Option (Option Nat × ReturnValuesSpy × Bool) :=
  match spy.values.get? spy.idx with
  | none => none
  | some (expectedPort, returnValue) =>
    let check := decide (some (port &&& 0xff) = getAddress symbols expectedPort)
    match returnValue with
    | SpyVal.byte n =>
      let idx := spy.idx + 1
      some (some n,
        { spy with idx := idx,
                   finished := if idx = spy.values.length then true else spy.finished },
        check)
    | SpyVal.str text =>
      let subValues := if spy.subIndex = 0 then stringToBytes text else spy.subValues
      let num := subValues.get? spy.subIndex
      let subIndex := spy.subIndex + 1
      if subIndex = text.length then
        let idx := spy.idx + 1
        some (num,
          { spy with subValues := subValues, subIndex := 0, idx := idx,
                     finished := if idx = spy.values.length then true else spy.finished },
          check)
      else
        some (num, { spy with subValues := subValues, subIndex := subIndex }, check)
    | SpyVal.seq bytes =>
      let subValues := if spy.subIndex = 0 then bytes else spy.subValues
      let num := subValues.get? spy.subIndex
      let subIndex := spy.subIndex + 1
      if subIndex = bytes.length then
        let idx := spy.idx + 1
        some (num,
          { spy with subValues := subValues, subIndex := 0, idx := idx,
                     finished := if idx = spy.values.length then true else spy.finished },
          check)
      else
        some (num, { spy with subValues := subValues, subIndex := subIndex }, check)

/-- ExpectValuesSpy.onRead: a read while a write-expectation phase is
current.  Returns the value the JavaScript function returns (always 0)
together with whether fail("Not expecting an IO read at this point") was
invoked; the spy state is untouched. -/
def expectValuesOnRead (spy : ExpectValuesSpy) (_port : Nat) : Nat × ExpectValuesSpy × Bool :=
  (0, spy, !spy.ignoreReads)

/-! ## Concrete inputs used by the claim theorems -/

/-- A memory image holding DD 09 (ADD IX, BC) at address 0. -/
def add_ix_mem : Nat → Nat := fun a => if a = 0 then 0xdd else if a = 1 then 0x09 else 0

/-- An in-range starting state for ADD IX, BC with IX = 0x8000 and
BC = 0x8000. -/
def add_ix_state : Z80State :=
  { initZ80 add_ix_mem (fun _ => 0) with ix := 0x8000, b := 0x80 }

/-- A state ready to accept a maskable interrupt in mode 2. -/
def im2_state : Z80State :=
  { initZ80 (fun _ => 0) (fun _ => 0) with iff1 := 1, imode := 2 }

/-- A memory image holding POP HL; NOP; HALT at address 0. -/
def pop_mem : Nat → Nat :=
  fun a => if a = 0 then 0xe1 else if a = 1 then 0x00 else if a = 2 then 0x76 else 0

/-- A starting state for the POP program with SP = 0x1000 (the bytes at
0x1000 and 0x1001 are 0, so POP HL loads 0 and leaves SP = 0x1002). -/
def pop_state : Z80State := { initZ80 pop_mem (fun _ => 0) with sp := 0x1000 }

/-- The states of a Z80 core reachable from power-on over a given memory
and I/O environment by repeatedly calling run_instruction. -/
inductive ReachableZ80 (mem io : Nat → Nat) : Z80State → Prop where
  | init : ReachableZ80 mem io (initZ80 mem io)
  | step (s : Z80State) : ReachableZ80 mem io s →
      ReachableZ80 mem io (run_instruction s).2

/-- A memory image holding DI at address 0 and EI everywhere else. -/
def c7mem : Nat → Nat := fun addr => if addr = 0 then 0xf3 else 0xfb

/-- The power-on state over c7mem: the next instruction is DI. -/
def c7s : Z80State := initZ80 c7mem (fun _ => 0)

/-- The same state with PC moved to 1: the next instruction is EI. -/
def c7sEI : Z80State := { c7s with pc := 1 }

/-! ## C1 -/

/-- C1: the claim says that from any in-range state every opcode leaves
all 8-bit registers in 0..=255 and all 16-bit registers (including IX
and IY) in 0..=65535.  The code violates this: do_ix_add stores the raw
17-bit sum into ix without the 0xffff mask every other 16-bit write
applies, so ADD IX, BC from the in-range state IX = 0x8000, BC = 0x8000
leaves IX = 65536.  This theorem evaluates the code at that failing
input: the starting state is in range, yet after run_instruction IX is
out of range. -/
theorem C1_add_ix_leaves_ix_out_of_range :
    (add_ix_state.a ≤ 255 ∧ add_ix_state.b ≤ 255 ∧ add_ix_state.c ≤ 255 ∧
     add_ix_state.d ≤ 255 ∧ add_ix_state.e ≤ 255 ∧ add_ix_state.h ≤ 255 ∧
     add_ix_state.l ≤ 255 ∧ add_ix_state.ix ≤ 65535 ∧ add_ix_state.iy ≤ 65535 ∧
     add_ix_state.sp ≤ 65535 ∧ add_ix_state.pc ≤ 65535) ∧
    memRead add_ix_state 0 = 0xdd ∧ memRead add_ix_state 1 = 0x09 ∧
    (run_instruction add_ix_state).2.ix = 65536 ∧
    ¬(run_instruction add_ix_state).2.ix ≤ 65535 := by
  decide

/-! ## C3 -/

/-- C3: the claim says a mode-2 maskable interrupt pushes PC, loads PC
through the ordinary memory-read path and never raises.  The code's
mode-2 branch calls this.core.read_mem_byte, a member no core object in
the repository supplies (the Zat constructor passes only
memRead/memWrite/ioRead/ioWrite, and the z80test harness passes only
mem_read/mem_write/io_read/io_write), so the call raises a TypeError.
This theorem evaluates the code at the failing input: IFF1 = 1 and
imode = 2, where interrupt(false, 0) throws instead of returning. -/
theorem C3_im2_interrupt_raises :
    im2_state.iff1 = 1 ∧ im2_state.imode = 2 ∧
    interruptE im2_state false 0 =
      Except.error "TypeError: this.core.read_mem_byte is not a function" :=
  ⟨rfl, rfl, rfl⟩

/-! ## C4 -/

/-- C4 counterexample: the claim says get_address fails with "Symbol X
not found" when the symbol is missing.  In the source, getAddress on a
missing symbol simply returns this.symbols[addr.toUpperCase()], which is
the value undefined (none): no failure, no message.  The spec-modelled
definition shows what the claim expected at the same input. -/
theorem C4_counterexample :
    getAddress [] (AddrArg.sym "foo") = none ∧
    getAddressSpec [] "foo" = Except.error "Symbol foo not found" :=
  ⟨rfl, rfl⟩

/-- C4 amended: for every string argument whose case-normalised form is
not in the symbol table, getAddress returns undefined (none) — it does
not fail and produces no message. -/
theorem C4_missing_symbol_returns_undefined
    (symbols : List (String × Nat)) (name : String)
    (hmiss : symbols.lookup (jsToUpper name) = none) :
    getAddress symbols (AddrArg.sym name) = none := by
  simpa [getAddress] using hmiss

/-- C4 witness: the amended theorem applied at the concrete table
[("BAR", 5)] and the name "foo". -/
theorem C4_missing_symbol_witness :
    getAddress [("BAR", 5)] (AddrArg.sym "foo") = none :=
  C4_missing_symbol_returns_undefined [("BAR", 5)] "foo" (by decide)

/-! ## C5 -/

/-- C5: for every state and operand, do_cp (the CP handler) leaves A
unchanged, sets S, Z, H, P, N and C exactly as do_sub (the SUB handler)
of the same operand would, and takes Y and X from bits 5 and 3 of the
operand rather than of the computed difference. -/
theorem C5_cp_is_sub_with_operand_xy (s : Z80State) (operand : Nat) :
    (do_cp operand s).a = s.a ∧
    (do_cp operand s).flags.S = (do_sub operand s).flags.S ∧
    (do_cp operand s).flags.Z = (do_sub operand s).flags.Z ∧
    (do_cp operand s).flags.H = (do_sub operand s).flags.H ∧
    (do_cp operand s).flags.P = (do_sub operand s).flags.P ∧
    (do_cp operand s).flags.N = (do_sub operand s).flags.N ∧
    (do_cp operand s).flags.C = (do_sub operand s).flags.C ∧
    (do_cp operand s).flags.Y = (operand &&& 0x20) >>> 5 ∧
    (do_cp operand s).flags.X = (operand &&& 0x08) >>> 3 :=
  ⟨rfl, rfl, rfl, rfl, rfl, rfl, rfl, rfl, rfl⟩

/-! ## C8 -/

/-- C8: for every state in which halted is true, run_instruction returns
exactly 1 and leaves the entire state unchanged — every register and
flag, the backing memory, the I/O trace and the internal flags are those
of the input state. -/
theorem C8_halted_returns_one_unchanged (s : Z80State) (hh : s.halted = true) :
    run_instruction s = (1, s) := by
  simp [run_instruction, hh]

/-- C8 witness: the theorem applied to the power-on state with halted
set. -/
theorem C8_halted_witness :
    run_instruction { initZ80 (fun _ => 0) (fun _ => 0) with halted := true } =
      (1, { initZ80 (fun _ => 0) (fun _ => 0) with halted := true }) :=
  C8_halted_returns_one_unchanged _ rfl

/-! ## C2 -/

/-- C2 amended, general form: whenever run was invoked with call = true
and the loop observes SP = entry SP + 2 (plain addition, no mod-65536
wrap), it stops at once — no matter which instruction brought SP there
and regardless of every other guard. -/
theorem C2_call_stop_on_sp (fuel startSp : Nat) (breakAt : Option Nat)
    (onStep : Option (Nat → Bool)) (steps count tStates : Nat) (s : Z80State)
    (hsp : s.sp = startSp + 2) :
    zat_run_loop fuel true startSp breakAt onStep steps count tStates s =
      (count, tStates, s) := by
  cases fuel with
  | zero => rfl
  | succ fuel => simp [zat_run_loop, run_while_cond, hsp]

/-- C2 witness: the amended theorem applied with fuel 1 and a state
whose SP is already entry SP + 2. -/
theorem C2_call_stop_witness :
    zat_run_loop 1 true 0x1000 none none 10 3 42 { pop_state with sp := 0x1002 } =
      (3, 42, { pop_state with sp := 0x1002 }) :=
  C2_call_stop_on_sp 1 0x1000 none none 10 3 42 _ rfl

/-- C2 counterexample: the claim says the call-mode stop fires only when
the last executed instruction was RET, and that an unrelated POP merely
bringing SP to entry SP + 2 does not stop the run.  Running the program
POP HL; NOP; HALT from SP = 0x1000 with call = true stops after exactly
one instruction — the POP (opcode 0xE1, not RET = 0xC9) — with SP =
0x1002 and the HALT never reached. -/
theorem C2_counterexample :
    (zat_run pop_state none none ⟨some 10, none, true⟩).1 = 1 ∧
    (zat_run pop_state none none ⟨some 10, none, true⟩).2.2.sp = 0x1002 ∧
    (zat_run pop_state none none ⟨some 10, none, true⟩).2.2.halted = false ∧
    memRead pop_state pop_state.pc = 0xe1 := by
  decide


/-- run_instruction on a non-halted state with no pending delayed DI/EI:
R auto-increment, decode, trailing PC increment, cycle readout. -/
theorem run_instruction_not_halted (s : Z80State) (hh : s.halted = false)
    (hdi : s.do_delayed_di = false) (hei : s.do_delayed_ei = false) :
    run_instruction s =
      (let s1 := decode_instruction (memRead s s.pc) { s with r := bumpR s.r }
       let s2 := { s1 with pc := (s1.pc + 1) % 65536 }
       (s2.cycle_counter, { s2 with cycle_counter := 0 })) := by
  cases s
  dsimp only at hh hdi hei
  subst hh hdi hei
  rfl

/-- Backing the PC up by one and letting the trailing increment undo it
is the identity modulo 65536. -/
theorem toWord_pred_succ (n : Nat) :
    (toWord ((((n + 1) % 65536 : Nat) : Int) - 1) + 1) % 65536 = (n + 1) % 65536 := by
  unfold toWord
  rcases Nat.eq_zero_or_pos ((n + 1) % 65536) with h0 | hpos
  · rw [h0]; decide
  · have hlt : (n + 1) % 65536 < 65536 := Nat.mod_lt _ (by norm_num)
    have h1 : ((((n + 1) % 65536 : Nat) : Int) - 1).emod 65536 =
        (((n + 1) % 65536 : Nat) : Int) - 1 :=
      Int.emod_eq_of_lt (by omega) (by omega)
    rw [h1]
    omega

/-- Two trailing PC increments compose modulo 65536. -/
theorem mod_succ_succ (n : Nat) :
    ((n + 1) % 65536 + 1) % 65536 = (n + 2) % 65536 := by
  omega

/-- The DD prefix handler on a continuation byte with no table entry:
extra R increment, PC backed up onto the continuation byte, one NOP
charged. -/
theorem dd_prefix_unknown (s : Z80State)
    (htab : ∀ t, dd_instructions (memRead s ((s.pc + 1) % 65536)) t = none) :
    dd_prefix_instruction s =
      { s with r := bumpR s.r,
               pc := toWord ((((s.pc + 1) % 65536 : Nat) : Int) - 1),
               cycle_counter := s.cycle_counter + 4 } := by
  unfold dd_prefix_instruction
  simp only [memRead] at htab ⊢
  rw [htab]
  rfl

/-- The FD prefix handler on a continuation byte with no table entry:
identical fallback (the IY/IX swap only happens for table entries). -/
theorem fd_prefix_unknown (s : Z80State)
    (htab : ∀ t, dd_instructions (memRead s ((s.pc + 1) % 65536)) t = none) :
    fd_prefix_instruction s =
      { s with r := bumpR s.r,
               pc := toWord ((((s.pc + 1) % 65536 : Nat) : Int) - 1),
               cycle_counter := s.cycle_counter + 4 } := by
  unfold fd_prefix_instruction
  simp only [memRead] at htab ⊢
  rw [htab]
  rfl

/-- The ED prefix handler on a continuation byte with no table entry:
extra R increment, PC left on the continuation byte, one NOP charged. -/
theorem ed_prefix_unknown (s : Z80State)
    (htab : ∀ t, ed_instructions (memRead s ((s.pc + 1) % 65536)) t = none) :
    ed_prefix_instruction s =
      { s with r := bumpR s.r,
               pc := (s.pc + 1) % 65536,
               cycle_counter := s.cycle_counter + 4 } := by
  unfold ed_prefix_instruction
  simp only [memRead] at htab ⊢
  rw [htab]
  rfl

/-- C6: unknown prefix continuations.  First conjunct: a DD prefix whose
continuation byte has no DD-table entry backs the PC up by one — the
instruction ends with PC on the continuation byte, so the next step
decodes that byte as an unprefixed opcode — and charges exactly one
NOP's cycle count (4), with both R increments applied and nothing else
changed.  Second conjunct: the same for an FD prefix.  Third conjunct:
an ED prefix whose continuation byte has no ED-table entry behaves as a
two-byte NOP: PC advances past both bytes, one NOP's cycle count is
charged, and nothing changes except the two R increments. -/
theorem C6_unknown_prefix_bytes :
    (∀ s : Z80State, s.halted = false → s.do_delayed_di = false →
      s.do_delayed_ei = false → memRead s s.pc = 0xdd →
      (∀ t, dd_instructions (memRead s ((s.pc + 1) % 65536)) t = none) →
      run_instruction s = (s.cycle_counter + 4,
        { s with pc := (s.pc + 1) % 65536, r := bumpR (bumpR s.r),
                 cycle_counter := 0 })) ∧
    (∀ s : Z80State, s.halted = false → s.do_delayed_di = false →
      s.do_delayed_ei = false → memRead s s.pc = 0xfd →
      (∀ t, dd_instructions (memRead s ((s.pc + 1) % 65536)) t = none) →
      run_instruction s = (s.cycle_counter + 4,
        { s with pc := (s.pc + 1) % 65536, r := bumpR (bumpR s.r),
                 cycle_counter := 0 })) ∧
    (∀ s : Z80State, s.halted = false → s.do_delayed_di = false →
      s.do_delayed_ei = false → memRead s s.pc = 0xed →
      (∀ t, ed_instructions (memRead s ((s.pc + 1) % 65536)) t = none) →
      run_instruction s = (s.cycle_counter + 4,
        { s with pc := (s.pc + 2) % 65536, r := bumpR (bumpR s.r),
                 cycle_counter := 0 })) := by
  refine ⟨?_, ?_, ?_⟩ <;> intro s hh hdi hei hop htab
  · rw [run_instruction_not_halted s hh hdi hei]
    simp only [hop]
    have hdec : decode_instruction 0xdd { s with r := bumpR s.r } =
        (let s1 := dd_prefix_instruction { s with r := bumpR s.r }
         { s1 with cycle_counter := s1.cycle_counter + 0 }) := rfl
    have htab2 : ∀ t, dd_instructions
        (memRead { s with r := bumpR s.r }
          ((({ s with r := bumpR s.r } : Z80State).pc + 1) % 65536)) t = none := htab
    rw [hdec, dd_prefix_unknown _ htab2]
    simp only [toWord_pred_succ]
  · rw [run_instruction_not_halted s hh hdi hei]
    simp only [hop]
    have hdec : decode_instruction 0xfd { s with r := bumpR s.r } =
        (let s1 := fd_prefix_instruction { s with r := bumpR s.r }
         { s1 with cycle_counter := s1.cycle_counter + 0 }) := rfl
    have htab2 : ∀ t, dd_instructions
        (memRead { s with r := bumpR s.r }
          ((({ s with r := bumpR s.r } : Z80State).pc + 1) % 65536)) t = none := htab
    rw [hdec, fd_prefix_unknown _ htab2]
    simp only [toWord_pred_succ]
  · rw [run_instruction_not_halted s hh hdi hei]
    simp only [hop]
    have hdec : decode_instruction 0xed { s with r := bumpR s.r } =
        (let s1 := ed_prefix_instruction { s with r := bumpR s.r }
         { s1 with cycle_counter := s1.cycle_counter + 0 }) := rfl
    have htab2 : ∀ t, ed_instructions
        (memRead { s with r := bumpR s.r }
          ((({ s with r := bumpR s.r } : Z80State).pc + 1) % 65536)) t = none := htab
    rw [hdec, ed_prefix_unknown _ htab2]
    simp only [mod_succ_succ]

/-- A memory image with a DD prefix and an unknown continuation byte. -/
def dd00_state : Z80State := initZ80 (fun a => if a = 0 then 0xdd else 0) (fun _ => 0)

/-- A memory image with an FD prefix and an unknown continuation byte. -/
def fd00_state : Z80State := initZ80 (fun a => if a = 0 then 0xfd else 0) (fun _ => 0)

/-- A memory image with an ED prefix and an unknown continuation byte. -/
def ed00_state : Z80State := initZ80 (fun a => if a = 0 then 0xed else 0) (fun _ => 0)

/-- C6 witness: the three conjuncts applied to concrete DD 00, FD 00 and
ED 00 programs (00 has no DD table entry and no ED table entry). -/
theorem C6_unknown_prefix_witness :
    run_instruction dd00_state = (dd00_state.cycle_counter + 4,
      { dd00_state with pc := (dd00_state.pc + 1) % 65536,
                        r := bumpR (bumpR dd00_state.r), cycle_counter := 0 }) ∧
    run_instruction fd00_state = (fd00_state.cycle_counter + 4,
      { fd00_state with pc := (fd00_state.pc + 1) % 65536,
                        r := bumpR (bumpR fd00_state.r), cycle_counter := 0 }) ∧
    run_instruction ed00_state = (ed00_state.cycle_counter + 4,
      { ed00_state with pc := (ed00_state.pc + 2) % 65536,
                        r := bumpR (bumpR ed00_state.r), cycle_counter := 0 }) :=
  ⟨C6_unknown_prefix_bytes.1 dd00_state rfl rfl rfl rfl (fun _ => rfl),
   C6_unknown_prefix_bytes.2.1 fd00_state rfl rfl rfl rfl (fun _ => rfl),
   C6_unknown_prefix_bytes.2.2 ed00_state rfl rfl rfl rfl (fun _ => rfl)⟩

/-! ## C10 -/

/-- The 8-bit register selected by the low three bits of a DDCB
sub-opcode (6, the memory-only encoding, is excluded by hypothesis in
the claim theorems; the catch-all arm is A, register code 7). -/
def reg_sel (code : Nat) (s : Z80State) : Nat :=
  match code with
  | 0 => s.b
  | 1 => s.c
  | 2 => s.d
  | 3 => s.e
  | 4 => s.h
  | 5 => s.l
  | _ => s.a

/-- The byte a DDCB RES or SET sub-opcode produces: the byte at the
effective address with the selected bit cleared (RES, 0x80..0xBF) or set
(SET, 0xC0..0xFF). -/
def ddcb_res_set_value (s : Z80State) (d sub : Nat) : Nat :=
  let ea := toWord ((s.ix : Int) + get_signed_offset_byte d)
  let bit_number := (sub &&& 0x38) >>> 3
  if sub < 0xc0 then (memRead s ea &&& jsNot (1 <<< bit_number)) &&& 0xff
  else memRead s ea ||| (1 <<< bit_number)

/-- A RES result is a masked byte. -/
theorem res_val_lt_256 (x bit : Nat) : (x &&& jsNot (1 <<< bit)) &&& 0xff < 256 :=
  Nat.lt_succ_of_le (Nat.and_le_right)

/-- A SET result on a byte stays a byte (the selected bit is below 8). -/
theorem set_val_lt_256 (m bit : Nat) (hm : m < 256) (hb : bit < 8) :
    m ||| (1 <<< bit) < 256 := by
  have h1 : (1 <<< bit) = 2 ^ bit := Nat.one_shiftLeft bit
  have h2 : (2 : Nat) ^ bit < 2 ^ 8 := Nat.pow_lt_pow_right (by norm_num) hb
  have := Nat.or_lt_two_pow (n := 8) hm (h1 ▸ h2)
  simpa using this
set_option maxHeartbeats 2000000 in
/-- The DDCB handler's RES/SET mirror: the modified byte lands both in
memory at IX + displacement and in the register selected by the
sub-opcode's low three bits. -/
theorem ddcb_res_set_mirror (s : Z80State) (d sub : Nat)
    (hd : memRead s ((s.pc + 1) % 65536) = d)
    (hsub : memRead s (((s.pc + 1) % 65536 + 1) % 65536) = sub)
    (h80 : 0x80 ≤ sub) (h100 : sub < 0x100) (h7 : sub &&& 0x07 ≠ 6) :
    memRead (dd_cb_instruction s) (toWord ((s.ix : Int) + get_signed_offset_byte d)) =
      ddcb_res_set_value s d sub ∧
    reg_sel (sub &&& 0x07) (dd_cb_instruction s) = ddcb_res_set_value s d sub := by
  have hn40 : ¬ sub < 0x40 := by omega
  have hn80 : ¬ sub < 0x80 := by omega
  unfold dd_cb_instruction fetch_offset
  simp only [memRead] at hd hsub ⊢
  simp only [hd, hsub]
  simp only [if_neg hn40, if_neg hn80]
  by_cases hres : sub < 0xc0
  · simp only [if_pos hres]
    have hv : (s.mem (toWord ((s.ix : Int) + get_signed_offset_byte d)) % 256 &&&
        jsNot (1 <<< ((sub &&& 0x38) >>> 3))) &&& 0xff < 256 := res_val_lt_256 _ _
    have h0 : sub &&& 0x07 = 0 ∨ sub &&& 0x07 = 1 ∨ sub &&& 0x07 = 2 ∨
        sub &&& 0x07 = 3 ∨ sub &&& 0x07 = 4 ∨ sub &&& 0x07 = 5 ∨
        sub &&& 0x07 = 7 := by
      have : sub &&& 0x07 ≤ 7 := Nat.and_le_right
      omega
    rcases h0 with h | h | h | h | h | h | h <;>
      simp only [h] <;>
      refine ⟨?_, ?_⟩ <;>
      simp [reg_sel, ddcb_res_set_value, memWrite, memRead, if_pos hres,
        Nat.mod_mod_of_dvd _ (dvd_refl 256), Nat.mod_eq_of_lt hv]
  · simp only [if_neg hres]
    have hbit : (sub &&& 0x38) >>> 3 < 8 := by
      have : sub &&& 0x38 ≤ 0x38 := Nat.and_le_right
      rw [Nat.shiftRight_eq_div_pow]
      omega
    have hmlt : s.mem (toWord ((s.ix : Int) + get_signed_offset_byte d)) % 256 < 256 :=
      Nat.mod_lt _ (by norm_num)
    have hv : s.mem (toWord ((s.ix : Int) + get_signed_offset_byte d)) % 256 |||
        (1 <<< ((sub &&& 0x38) >>> 3)) < 256 := set_val_lt_256 _ _ hmlt hbit
    have h0 : sub &&& 0x07 = 0 ∨ sub &&& 0x07 = 1 ∨ sub &&& 0x07 = 2 ∨
        sub &&& 0x07 = 3 ∨ sub &&& 0x07 = 4 ∨ sub &&& 0x07 = 5 ∨
        sub &&& 0x07 = 7 := by
      have : sub &&& 0x07 ≤ 7 := Nat.and_le_right
      omega
    rcases h0 with h | h | h | h | h | h | h <;>
      simp only [h] <;>
      refine ⟨?_, ?_⟩ <;>
      simp [reg_sel, ddcb_res_set_value, memWrite, memRead, if_neg hres,
        Nat.mod_mod_of_dvd _ (dvd_refl 256), Nat.mod_eq_of_lt hv]

/-- The byte an FDCB RES or SET sub-opcode produces: as ddcb_res_set_value
but with IY as the index register (the FD prefix swaps IY into IX around
the shared handler). -/
def fdcb_res_set_value (s : Z80State) (d sub : Nat) : Nat :=
  ddcb_res_set_value { s with ix := s.iy } d sub

/-- The FDCB route: the FD prefix swaps IY into IX, runs the shared DDCB
handler, and swaps back; the RES/SET mirror therefore lands in memory at
IY + displacement and in the selected register. -/
theorem fdcb_res_set_mirror (s : Z80State) (d sub : Nat)
    (hcb : memRead s ((s.pc + 1) % 65536) = 0xcb)
    (hd : memRead s ((s.pc + 2) % 65536) = d)
    (hsub : memRead s ((s.pc + 3) % 65536) = sub)
    (h80 : 0x80 ≤ sub) (h100 : sub < 0x100) (h7 : sub &&& 0x07 ≠ 6) :
    memRead (fd_prefix_instruction s) (toWord ((s.iy : Int) + get_signed_offset_byte d)) =
      fdcb_res_set_value s d sub ∧
    reg_sel (sub &&& 0x07) (fd_prefix_instruction s) = fdcb_res_set_value s d sub := by
  have e1 : ((s.pc + 1) % 65536 + 1) % 65536 = (s.pc + 2) % 65536 := mod_succ_succ s.pc
  have e2 : (((s.pc + 1) % 65536 + 1) % 65536 + 1) % 65536 = (s.pc + 3) % 65536 := by
    omega
  have hd2 : memRead s (((s.pc + 1) % 65536 + 1) % 65536) = d := by
    rw [e1]; exact hd
  have hsub2 : memRead s ((((s.pc + 1) % 65536 + 1) % 65536 + 1) % 65536) = sub := by
    rw [e2]; exact hsub
  have hmain := ddcb_res_set_mirror
    { s with r := bumpR s.r, pc := (s.pc + 1) % 65536, ix := s.iy } d sub hd2 hsub2
    h80 h100 h7
  unfold fd_prefix_instruction
  simp only [memRead] at hcb ⊢
  have hcb_entry : ∀ t, dd_instructions 0xcb t = some (dd_cb_instruction t) :=
    fun _ => rfl
  simp only [hcb, hcb_entry]
  simp only [memRead] at hmain
  have h0 : sub &&& 0x07 = 0 ∨ sub &&& 0x07 = 1 ∨ sub &&& 0x07 = 2 ∨
      sub &&& 0x07 = 3 ∨ sub &&& 0x07 = 4 ∨ sub &&& 0x07 = 5 ∨
      sub &&& 0x07 = 7 := by
    have : sub &&& 0x07 ≤ 7 := Nat.and_le_right
    omega
  rcases h0 with h | h | h | h | h | h | h <;>
    simp only [h] at hmain ⊢ <;>
    exact ⟨hmain.1, by simpa [reg_sel] using hmain.2⟩

/-- C10: for every DDCB (first conjunct) or FDCB (second conjunct)
instruction whose sub-opcode lies in 0x80..0xFF (RES and SET) and whose
low 3 bits are not 6, the modified byte is written both to memory at the
effective address IX/IY + displacement and into the 8-bit register
selected by those low 3 bits — the undocumented register mirror applies
to RES and SET exactly as to the shift/rotate sub-opcodes (the handler
assigns the same mirrored value in all three ranges). -/
theorem C10_res_set_register_mirror :
    (∀ (s : Z80State) (d sub : Nat),
      memRead s ((s.pc + 1) % 65536) = d →
      memRead s (((s.pc + 1) % 65536 + 1) % 65536) = sub →
      0x80 ≤ sub → sub < 0x100 → sub &&& 0x07 ≠ 6 →
      memRead (dd_cb_instruction s)
          (toWord ((s.ix : Int) + get_signed_offset_byte d)) =
        ddcb_res_set_value s d sub ∧
      reg_sel (sub &&& 0x07) (dd_cb_instruction s) = ddcb_res_set_value s d sub) ∧
    (∀ (s : Z80State) (d sub : Nat),
      memRead s ((s.pc + 1) % 65536) = 0xcb →
      memRead s ((s.pc + 2) % 65536) = d →
      memRead s ((s.pc + 3) % 65536) = sub →
      0x80 ≤ sub → sub < 0x100 → sub &&& 0x07 ≠ 6 →
      memRead (fd_prefix_instruction s)
          (toWord ((s.iy : Int) + get_signed_offset_byte d)) =
        fdcb_res_set_value s d sub ∧
      reg_sel (sub &&& 0x07) (fd_prefix_instruction s) = fdcb_res_set_value s d sub) :=
  ⟨ddcb_res_set_mirror, fdcb_res_set_mirror⟩

/-- A state about to execute the DDCB handler: PC on the CB byte, then
displacement 0x05 and sub-opcode 0xC0 (SET 0), with IX = 0x1000. -/
def ddcb_witness_state : Z80State :=
  { initZ80 (fun a => if a = 1 then 0x05 else if a = 2 then 0xc0 else 0) (fun _ => 0)
    with ix := 0x1000 }

/-- A state about to execute an FD prefix: FD CB 05 C0 at 0, IY = 0x2000. -/
def fdcb_witness_state : Z80State :=
  { initZ80 (fun a => if a = 0 then 0xfd else if a = 1 then 0xcb else
      if a = 2 then 0x05 else if a = 3 then 0xc0 else 0) (fun _ => 0)
    with iy := 0x2000 }

/-- C10 witness: both conjuncts applied at concrete SET 0 instructions. -/
theorem C10_res_set_register_mirror_witness :
    (memRead (dd_cb_instruction ddcb_witness_state)
        (toWord ((ddcb_witness_state.ix : Int) + get_signed_offset_byte 0x05)) =
      ddcb_res_set_value ddcb_witness_state 0x05 0xc0 ∧
     reg_sel (0xc0 &&& 0x07) (dd_cb_instruction ddcb_witness_state) =
      ddcb_res_set_value ddcb_witness_state 0x05 0xc0) ∧
    (memRead (fd_prefix_instruction fdcb_witness_state)
        (toWord ((fdcb_witness_state.iy : Int) + get_signed_offset_byte 0x05)) =
      fdcb_res_set_value fdcb_witness_state 0x05 0xc0 ∧
     reg_sel (0xc0 &&& 0x07) (fd_prefix_instruction fdcb_witness_state) =
      fdcb_res_set_value fdcb_witness_state 0x05 0xc0) :=
  ⟨C10_res_set_register_mirror.1 ddcb_witness_state 0x05 0xc0 rfl rfl
      (by norm_num) (by norm_num) (by decide),
   C10_res_set_register_mirror.2 fdcb_witness_state 0x05 0xc0 rfl rfl rfl
      (by norm_num) (by norm_num) (by decide)⟩

/-! ## C9 -/

/-- C9: reads against the I/O spies.  Conjunct 1: in a read-expectation
phase whose current element is a single byte, a read performs exactly one
assertion — that the actual port masked with 0xFF equals the (possibly
symbol-resolved) expected port — returns that byte, and advances to the
next element.  Conjunct 2: when the current element is a byte sequence,
a read returns the byte at the current sub-position and advances one
byte per read, moving to the next element exactly when the sequence's
length is consumed.  Conjunct 3: the same for a string element, whose
code units are the bytes.  Conjunct 4: a read arriving while the current
phase is a write-expectation phase without ignore_reads calls fail (the
test fails) and returns 0, leaving the spy untouched. -/
theorem C9_spy_reads :
    (∀ (symbols : List (String × Nat)) (spy : ReturnValuesSpy) (port : Nat)
       (ep : AddrArg) (n : Nat),
      spy.values.get? spy.idx = some (ep, SpyVal.byte n) →
      returnValuesOnRead symbols spy port = some
        (some n,
         { spy with idx := spy.idx + 1,
                    finished := if spy.idx + 1 = spy.values.length then true
                                else spy.finished },
         decide (some (port &&& 0xff) = getAddress symbols ep))) ∧
    (∀ (symbols : List (String × Nat)) (spy : ReturnValuesSpy) (port : Nat)
       (ep : AddrArg) (bytes : List Nat),
      spy.values.get? spy.idx = some (ep, SpyVal.seq bytes) →
      spy.subIndex < bytes.length →
      (spy.subIndex ≠ 0 → spy.subValues = bytes) →
      returnValuesOnRead symbols spy port = some
        (bytes.get? spy.subIndex,
         (if spy.subIndex + 1 = bytes.length then
            { spy with subValues := bytes, subIndex := 0, idx := spy.idx + 1,
                       finished := if spy.idx + 1 = spy.values.length then true
                                   else spy.finished }
          else { spy with subValues := bytes, subIndex := spy.subIndex + 1 }),
         decide (some (port &&& 0xff) = getAddress symbols ep))) ∧
    (∀ (symbols : List (String × Nat)) (spy : ReturnValuesSpy) (port : Nat)
       (ep : AddrArg) (text : String),
      spy.values.get? spy.idx = some (ep, SpyVal.str text) →
      spy.subIndex < text.length →
      (spy.subIndex ≠ 0 → spy.subValues = stringToBytes text) →
      returnValuesOnRead symbols spy port = some
        ((stringToBytes text).get? spy.subIndex,
         (if spy.subIndex + 1 = text.length then
            { spy with subValues := stringToBytes text, subIndex := 0,
                       idx := spy.idx + 1,
                       finished := if spy.idx + 1 = spy.values.length then true
                                   else spy.finished }
          else { spy with subValues := stringToBytes text,
                          subIndex := spy.subIndex + 1 }),
         decide (some (port &&& 0xff) = getAddress symbols ep))) ∧
    (∀ (spy : ExpectValuesSpy) (port : Nat),
      spy.ignoreReads = false →
      expectValuesOnRead spy port = (0, spy, true)) := by
  refine ⟨?_, ?_, ?_, ?_⟩
  · intro symbols spy port ep n hval
    simp only [List.get?_eq_getElem?] at hval
    simp [returnValuesOnRead, hval]
  · intro symbols spy port ep bytes hval hlt hcache
    simp only [List.get?_eq_getElem?] at hval
    by_cases h0 : spy.subIndex = 0
    · simp [returnValuesOnRead, hval, h0]
      split <;> rfl
    · simp [returnValuesOnRead, hval, h0, hcache h0]
      split <;> rfl
  · intro symbols spy port ep text hval hlt hcache
    simp only [List.get?_eq_getElem?] at hval
    by_cases h0 : spy.subIndex = 0
    · simp [returnValuesOnRead, hval, h0]
      split <;> rfl
    · simp [returnValuesOnRead, hval, h0, hcache h0]
      split <;> rfl
  · intro spy port hir
    simp [expectValuesOnRead, hir]

/-- A one-element scalar read spy on port 8. -/
def spy_scalar : ReturnValuesSpy :=
  { values := [(AddrArg.num 8, SpyVal.byte 0x41)], idx := 0, subIndex := 0,
    subValues := [], finished := false, ignoreWrites := false }

/-- A one-element two-byte-sequence read spy on port 8. -/
def spy_seq : ReturnValuesSpy :=
  { values := [(AddrArg.num 8, SpyVal.seq [1, 2])], idx := 0, subIndex := 0,
    subValues := [], finished := false, ignoreWrites := false }

/-- A one-element string read spy on port 8. -/
def spy_str : ReturnValuesSpy :=
  { values := [(AddrArg.num 8, SpyVal.str "AB")], idx := 0, subIndex := 0,
    subValues := [], finished := false, ignoreWrites := false }

/-- A write-expectation spy that does not ignore reads. -/
def spy_expect : ExpectValuesSpy :=
  { values := [(AddrArg.num 9, SpyVal.byte 1)], idx := 0, subIndex := 0,
    subValues := [], finished := false, ignoreReads := false }

/-- C9 witness: the four conjuncts applied to concrete spies and reads. -/
theorem C9_spy_reads_witness :
    returnValuesOnRead [] spy_scalar 8 = some
      (some 0x41,
       { spy_scalar with idx := 1,
                         finished := if 0 + 1 = spy_scalar.values.length then true
                                     else spy_scalar.finished },
       decide (some (8 &&& 0xff) = getAddress [] (AddrArg.num 8))) ∧
    returnValuesOnRead [] spy_seq 8 = some
      ((([1, 2] : List Nat)).get? 0,
       (if 0 + 1 = ([1, 2] : List Nat).length then
          { spy_seq with subValues := [1, 2], subIndex := 0, idx := 1,
                         finished := if 0 + 1 = spy_seq.values.length then true
                                     else spy_seq.finished }
        else { spy_seq with subValues := [1, 2], subIndex := 0 + 1 }),
       decide (some (8 &&& 0xff) = getAddress [] (AddrArg.num 8))) ∧
    returnValuesOnRead [] spy_str 8 = some
      ((stringToBytes "AB").get? 0,
       (if 0 + 1 = "AB".length then
          { spy_str with subValues := stringToBytes "AB", subIndex := 0, idx := 1,
                         finished := if 0 + 1 = spy_str.values.length then true
                                     else spy_str.finished }
        else { spy_str with subValues := stringToBytes "AB", subIndex := 0 + 1 }),
       decide (some (8 &&& 0xff) = getAddress [] (AddrArg.num 8))) ∧
    expectValuesOnRead spy_expect 9 = (0, spy_expect, true) :=
  ⟨C9_spy_reads.1 [] spy_scalar 8 (AddrArg.num 8) 0x41 rfl,
   C9_spy_reads.2.1 [] spy_seq 8 (AddrArg.num 8) [1, 2] rfl (by decide)
     (fun h => absurd rfl h),
   C9_spy_reads.2.2.1 [] spy_str 8 (AddrArg.num 8) "AB" rfl (by decide)
     (fun h => absurd rfl h),
   C9_spy_reads.2.2.2 spy_expect 9 rfl⟩

/-! ## C7: pending delayed-DI/EI flags

Every helper below leaves the do_delayed_di / do_delayed_ei flags alone;
only the DI (0xF3) and EI (0xFB) handlers set them, and only
run_instruction clears them.  These projection lemmas drive the
case analyses over the opcode tables. -/

@[simp] theorem memWrite_pending (s : Z80State) (addr : Nat) (value : Nat) :
    (memWrite s addr value).do_delayed_di = s.do_delayed_di ∧
    (memWrite s addr value).do_delayed_ei = s.do_delayed_ei := ⟨rfl, rfl⟩

@[simp] theorem ioWrite_pending (s : Z80State) (port : Nat) (value : Nat) :
    (ioWrite s port value).do_delayed_di = s.do_delayed_di ∧
    (ioWrite s port value).do_delayed_ei = s.do_delayed_ei := ⟨rfl, rfl⟩

@[simp] theorem push_word_pending (operand : Nat) (s : Z80State) :
    (push_word operand s).do_delayed_di = s.do_delayed_di ∧
    (push_word operand s).do_delayed_ei = s.do_delayed_ei := ⟨rfl, rfl⟩

@[simp] theorem set_flags_register_pending (operand : Nat) (s : Z80State) :
    (set_flags_register operand s).do_delayed_di = s.do_delayed_di ∧
    (set_flags_register operand s).do_delayed_ei = s.do_delayed_ei := ⟨rfl, rfl⟩

@[simp] theorem set_flags_alt_pending (operand : Nat) (s : Z80State) :
    (set_flags_alt operand s).do_delayed_di = s.do_delayed_di ∧
    (set_flags_alt operand s).do_delayed_ei = s.do_delayed_ei := ⟨rfl, rfl⟩

@[simp] theorem update_xy_flags_pending (result : Nat) (s : Z80State) :
    (update_xy_flags result s).do_delayed_di = s.do_delayed_di ∧
    (update_xy_flags result s).do_delayed_ei = s.do_delayed_ei := ⟨rfl, rfl⟩

@[simp] theorem do_reset_pending (address : Nat) (s : Z80State) :
    (do_reset address s).do_delayed_di = s.do_delayed_di ∧
    (do_reset address s).do_delayed_ei = s.do_delayed_ei := ⟨rfl, rfl⟩

@[simp] theorem do_add_pending (operand : Nat) (s : Z80State) :
    (do_add operand s).do_delayed_di = s.do_delayed_di ∧
    (do_add operand s).do_delayed_ei = s.do_delayed_ei := ⟨rfl, rfl⟩

@[simp] theorem do_adc_pending (operand : Nat) (s : Z80State) :
    (do_adc operand s).do_delayed_di = s.do_delayed_di ∧
    (do_adc operand s).do_delayed_ei = s.do_delayed_ei := ⟨rfl, rfl⟩

@[simp] theorem do_sub_pending (operand : Nat) (s : Z80State) :
    (do_sub operand s).do_delayed_di = s.do_delayed_di ∧
    (do_sub operand s).do_delayed_ei = s.do_delayed_ei := ⟨rfl, rfl⟩

@[simp] theorem do_sbc_pending (operand : Nat) (s : Z80State) :
    (do_sbc operand s).do_delayed_di = s.do_delayed_di ∧
    (do_sbc operand s).do_delayed_ei = s.do_delayed_ei := ⟨rfl, rfl⟩

@[simp] theorem do_cp_pending (operand : Nat) (s : Z80State) :
    (do_cp operand s).do_delayed_di = s.do_delayed_di ∧
    (do_cp operand s).do_delayed_ei = s.do_delayed_ei := ⟨rfl, rfl⟩

@[simp] theorem do_and_pending (operand : Nat) (s : Z80State) :
    (do_and operand s).do_delayed_di = s.do_delayed_di ∧
    (do_and operand s).do_delayed_ei = s.do_delayed_ei := ⟨rfl, rfl⟩

@[simp] theorem do_or_pending (operand : Nat) (s : Z80State) :
    (do_or operand s).do_delayed_di = s.do_delayed_di ∧
    (do_or operand s).do_delayed_ei = s.do_delayed_ei := ⟨rfl, rfl⟩

@[simp] theorem do_xor_pending (operand : Nat) (s : Z80State) :
    (do_xor operand s).do_delayed_di = s.do_delayed_di ∧
    (do_xor operand s).do_delayed_ei = s.do_delayed_ei := ⟨rfl, rfl⟩

@[simp] theorem do_hl_add_pending (operand : Nat) (s : Z80State) :
    (do_hl_add operand s).do_delayed_di = s.do_delayed_di ∧
    (do_hl_add operand s).do_delayed_ei = s.do_delayed_ei := ⟨rfl, rfl⟩

@[simp] theorem do_hl_adc_pending (operand : Nat) (s : Z80State) :
    (do_hl_adc operand s).do_delayed_di = s.do_delayed_di ∧
    (do_hl_adc operand s).do_delayed_ei = s.do_delayed_ei := ⟨rfl, rfl⟩

@[simp] theorem do_hl_sbc_pending (operand : Nat) (s : Z80State) :
    (do_hl_sbc operand s).do_delayed_di = s.do_delayed_di ∧
    (do_hl_sbc operand s).do_delayed_ei = s.do_delayed_ei := ⟨rfl, rfl⟩

@[simp] theorem do_ldi_pending (s : Z80State) :
    (do_ldi s).do_delayed_di = s.do_delayed_di ∧
    (do_ldi s).do_delayed_ei = s.do_delayed_ei := ⟨rfl, rfl⟩

@[simp] theorem do_cpi_pending (s : Z80State) :
    (do_cpi s).do_delayed_di = s.do_delayed_di ∧
    (do_cpi s).do_delayed_ei = s.do_delayed_ei := ⟨rfl, rfl⟩

@[simp] theorem do_ini_pending (s : Z80State) :
    (do_ini s).do_delayed_di = s.do_delayed_di ∧
    (do_ini s).do_delayed_ei = s.do_delayed_ei := ⟨rfl, rfl⟩

@[simp] theorem do_outi_pending (s : Z80State) :
    (do_outi s).do_delayed_di = s.do_delayed_di ∧
    (do_outi s).do_delayed_ei = s.do_delayed_ei := ⟨rfl, rfl⟩

@[simp] theorem do_ldd_pending (s : Z80State) :
    (do_ldd s).do_delayed_di = s.do_delayed_di ∧
    (do_ldd s).do_delayed_ei = s.do_delayed_ei := ⟨rfl, rfl⟩

@[simp] theorem do_cpd_pending (s : Z80State) :
    (do_cpd s).do_delayed_di = s.do_delayed_di ∧
    (do_cpd s).do_delayed_ei = s.do_delayed_ei := ⟨rfl, rfl⟩

@[simp] theorem do_ind_pending (s : Z80State) :
    (do_ind s).do_delayed_di = s.do_delayed_di ∧
    (do_ind s).do_delayed_ei = s.do_delayed_ei := ⟨rfl, rfl⟩

@[simp] theorem do_outd_pending (s : Z80State) :
    (do_outd s).do_delayed_di = s.do_delayed_di ∧
    (do_outd s).do_delayed_ei = s.do_delayed_ei := ⟨rfl, rfl⟩

@[simp] theorem do_ix_add_pending (operand : Nat) (s : Z80State) :
    (do_ix_add operand s).do_delayed_di = s.do_delayed_di ∧
    (do_ix_add operand s).do_delayed_ei = s.do_delayed_ei := ⟨rfl, rfl⟩

@[simp] theorem daa_instruction_pending (s : Z80State) :
    (daa_instruction s).do_delayed_di = s.do_delayed_di ∧
    (daa_instruction s).do_delayed_ei = s.do_delayed_ei := ⟨rfl, rfl⟩

@[simp] theorem pop_word_pending (s : Z80State) :
    (pop_word s).2.do_delayed_di = s.do_delayed_di ∧
    (pop_word s).2.do_delayed_ei = s.do_delayed_ei := ⟨rfl, rfl⟩

@[simp] theorem do_inc_pending (operand : Nat) (s : Z80State) :
    (do_inc operand s).2.do_delayed_di = s.do_delayed_di ∧
    (do_inc operand s).2.do_delayed_ei = s.do_delayed_ei := ⟨rfl, rfl⟩

@[simp] theorem do_dec_pending (operand : Nat) (s : Z80State) :
    (do_dec operand s).2.do_delayed_di = s.do_delayed_di ∧
    (do_dec operand s).2.do_delayed_ei = s.do_delayed_ei := ⟨rfl, rfl⟩

@[simp] theorem do_in_pending (port : Nat) (s : Z80State) :
    (do_in port s).2.do_delayed_di = s.do_delayed_di ∧
    (do_in port s).2.do_delayed_ei = s.do_delayed_ei := ⟨rfl, rfl⟩

@[simp] theorem do_rlc_pending (operand : Nat) (s : Z80State) :
    (do_rlc operand s).2.do_delayed_di = s.do_delayed_di ∧
    (do_rlc operand s).2.do_delayed_ei = s.do_delayed_ei := ⟨rfl, rfl⟩

@[simp] theorem do_rrc_pending (operand : Nat) (s : Z80State) :
    (do_rrc operand s).2.do_delayed_di = s.do_delayed_di ∧
    (do_rrc operand s).2.do_delayed_ei = s.do_delayed_ei := ⟨rfl, rfl⟩

@[simp] theorem do_rl_pending (operand : Nat) (s : Z80State) :
    (do_rl operand s).2.do_delayed_di = s.do_delayed_di ∧
    (do_rl operand s).2.do_delayed_ei = s.do_delayed_ei := ⟨rfl, rfl⟩

@[simp] theorem do_rr_pending (operand : Nat) (s : Z80State) :
    (do_rr operand s).2.do_delayed_di = s.do_delayed_di ∧
    (do_rr operand s).2.do_delayed_ei = s.do_delayed_ei := ⟨rfl, rfl⟩

@[simp] theorem do_sla_pending (operand : Nat) (s : Z80State) :
    (do_sla operand s).2.do_delayed_di = s.do_delayed_di ∧
    (do_sla operand s).2.do_delayed_ei = s.do_delayed_ei := ⟨rfl, rfl⟩

@[simp] theorem do_sra_pending (operand : Nat) (s : Z80State) :
    (do_sra operand s).2.do_delayed_di = s.do_delayed_di ∧
    (do_sra operand s).2.do_delayed_ei = s.do_delayed_ei := ⟨rfl, rfl⟩

@[simp] theorem do_sll_pending (operand : Nat) (s : Z80State) :
    (do_sll operand s).2.do_delayed_di = s.do_delayed_di ∧
    (do_sll operand s).2.do_delayed_ei = s.do_delayed_ei := ⟨rfl, rfl⟩

@[simp] theorem do_srl_pending (operand : Nat) (s : Z80State) :
    (do_srl operand s).2.do_delayed_di = s.do_delayed_di ∧
    (do_srl operand s).2.do_delayed_ei = s.do_delayed_ei := ⟨rfl, rfl⟩

@[simp] theorem fetch_word_operand_pending (s : Z80State) :
    (fetch_word_operand s).2.do_delayed_di = s.do_delayed_di ∧
    (fetch_word_operand s).2.do_delayed_ei = s.do_delayed_ei := ⟨rfl, rfl⟩

@[simp] theorem fetch_offset_pending (s : Z80State) :
    (fetch_offset s).2.do_delayed_di = s.do_delayed_di ∧
    (fetch_offset s).2.do_delayed_ei = s.do_delayed_ei := ⟨rfl, rfl⟩

@[simp] theorem do_conditional_absolute_jump_pending (condition : Bool) (s : Z80State) :
    (do_conditional_absolute_jump condition s).do_delayed_di = s.do_delayed_di ∧
    (do_conditional_absolute_jump condition s).do_delayed_ei = s.do_delayed_ei := by
  unfold do_conditional_absolute_jump
  refine ⟨?_, ?_⟩ <;> split <;> rfl

@[simp] theorem do_conditional_relative_jump_pending (condition : Bool) (s : Z80State) :
    (do_conditional_relative_jump condition s).do_delayed_di = s.do_delayed_di ∧
    (do_conditional_relative_jump condition s).do_delayed_ei = s.do_delayed_ei := by
  unfold do_conditional_relative_jump
  refine ⟨?_, ?_⟩ <;> split <;> rfl

@[simp] theorem do_conditional_call_pending (condition : Bool) (s : Z80State) :
    (do_conditional_call condition s).do_delayed_di = s.do_delayed_di ∧
    (do_conditional_call condition s).do_delayed_ei = s.do_delayed_ei := by
  unfold do_conditional_call
  refine ⟨?_, ?_⟩ <;> split <;> rfl

@[simp] theorem do_conditional_return_pending (condition : Bool) (s : Z80State) :
    (do_conditional_return condition s).do_delayed_di = s.do_delayed_di ∧
    (do_conditional_return condition s).do_delayed_ei = s.do_delayed_ei := by
  unfold do_conditional_return
  refine ⟨?_, ?_⟩ <;> split <;> rfl

@[simp] theorem do_neg_pending (s : Z80State) :
    (do_neg s).do_delayed_di = s.do_delayed_di ∧
    (do_neg s).do_delayed_ei = s.do_delayed_ei := by
  unfold do_neg
  refine ⟨?_, ?_⟩ <;> split <;> rfl

@[simp] theorem shift_op_pending (idx : Nat) (operand : Nat) (s : Z80State) :
    (shift_op idx operand s).2.do_delayed_di = s.do_delayed_di ∧
    (shift_op idx operand s).2.do_delayed_ei = s.do_delayed_ei := by
  unfold shift_op
  refine ⟨?_, ?_⟩ <;> split <;> rfl

@[simp] theorem alu_op_pending (idx : Nat) (operand : Nat) (s : Z80State) :
    (alu_op idx operand s).do_delayed_di = s.do_delayed_di ∧
    (alu_op idx operand s).do_delayed_ei = s.do_delayed_ei := by
  unfold alu_op
  refine ⟨?_, ?_⟩ <;> split <;> rfl

/-- The DDCB handler does not touch the pending delayed-DI/EI flags. -/
@[simp] theorem dd_cb_instruction_pending (s : Z80State) :
    (dd_cb_instruction s).do_delayed_di = s.do_delayed_di ∧
    (dd_cb_instruction s).do_delayed_ei = s.do_delayed_ei := by
  unfold dd_cb_instruction
  dsimp only
  refine ⟨?_, ?_⟩ <;> (split_ifs <;> (repeat' split) <;> simp)

/-- The CB prefix handler does not touch the pending flags. -/
@[simp] theorem cb_prefix_instruction_pending (s : Z80State) :
    (cb_prefix_instruction s).do_delayed_di = s.do_delayed_di ∧
    (cb_prefix_instruction s).do_delayed_ei = s.do_delayed_ei := by
  unfold cb_prefix_instruction
  dsimp only
  refine ⟨?_, ?_⟩ <;> (split_ifs <;> (repeat' split) <;> simp)

set_option maxHeartbeats 4000000 in
/-- No ED-table instruction touches the pending delayed-DI/EI flags. -/
theorem ed_instructions_pending (op : Nat) (s t : Z80State)
    (h : ed_instructions op s = some t) :
    t.do_delayed_di = s.do_delayed_di ∧ t.do_delayed_ei = s.do_delayed_ei := by
  unfold ed_instructions at h
  split at h <;>
    first
      | exact Option.noConfusion h
      | (injection h with h2
         subst h2
         refine ⟨?_, ?_⟩ <;> (dsimp only <;> (try split_ifs) <;> (repeat' split) <;> simp))

set_option maxHeartbeats 4000000 in
/-- No DD-table instruction touches the pending delayed-DI/EI flags. -/
theorem dd_instructions_pending (op : Nat) (s t : Z80State)
    (h : dd_instructions op s = some t) :
    t.do_delayed_di = s.do_delayed_di ∧ t.do_delayed_ei = s.do_delayed_ei := by
  unfold dd_instructions at h
  split at h <;>
    first
      | exact Option.noConfusion h
      | (injection h with h2
         subst h2
         refine ⟨?_, ?_⟩ <;> (dsimp only <;> (try split_ifs) <;> (repeat' split) <;> simp))

/-- The DD prefix handler does not touch the pending flags. -/
@[simp] theorem dd_prefix_instruction_pending (s : Z80State) :
    (dd_prefix_instruction s).do_delayed_di = s.do_delayed_di ∧
    (dd_prefix_instruction s).do_delayed_ei = s.do_delayed_ei := by
  unfold dd_prefix_instruction
  dsimp only
  split
  · next s2 heq => exact ⟨(dd_instructions_pending _ _ _ heq).1,
      (dd_instructions_pending _ _ _ heq).2⟩
  · exact ⟨rfl, rfl⟩

/-- The FD prefix handler does not touch the pending flags. -/
@[simp] theorem fd_prefix_instruction_pending (s : Z80State) :
    (fd_prefix_instruction s).do_delayed_di = s.do_delayed_di ∧
    (fd_prefix_instruction s).do_delayed_ei = s.do_delayed_ei := by
  unfold fd_prefix_instruction
  dsimp only
  split
  · next s2 heq => exact ⟨(dd_instructions_pending _ _ _ heq).1,
      (dd_instructions_pending _ _ _ heq).2⟩
  · exact ⟨rfl, rfl⟩

/-- The ED prefix handler does not touch the pending flags. -/
@[simp] theorem ed_prefix_instruction_pending (s : Z80State) :
    (ed_prefix_instruction s).do_delayed_di = s.do_delayed_di ∧
    (ed_prefix_instruction s).do_delayed_ei = s.do_delayed_ei := by
  unfold ed_prefix_instruction
  dsimp only
  split
  · next s2 heq => exact ⟨(ed_instructions_pending _ _ _ heq).1,
      (ed_instructions_pending _ _ _ heq).2⟩
  · exact ⟨rfl, rfl⟩

set_option maxHeartbeats 8000000 in
set_option maxRecDepth 8192 in
/-- Across the primary instruction table, starting from a state with both
pending delayed-DI/EI flags clear, at most one of the two flags can be
set afterwards (only DI sets one, only EI sets the other). -/
theorem instructions_pending_not_both (op : Nat) (s t : Z80State)
    (hdi : s.do_delayed_di = false) (hei : s.do_delayed_ei = false)
    (h : instructions op s = t) :
    t.do_delayed_di = false ∨ t.do_delayed_ei = false := by
  unfold instructions at h
  split at h <;>
    (subst h
     (try dsimp only) <;> (try split_ifs) <;> (repeat' split) <;> simp [hdi, hei])

/-- The decoder, from a state with both pending flags clear, never sets
both pending flags. -/
theorem decode_instruction_not_both (op : Nat) (s t : Z80State)
    (hdi : s.do_delayed_di = false) (hei : s.do_delayed_ei = false)
    (h : decode_instruction op s = t) :
    t.do_delayed_di = false ∨ t.do_delayed_ei = false := by
  unfold decode_instruction at h
  dsimp only at h
  split_ifs at h
  · subst h; exact Or.inl hdi
  · split at h <;> (subst h; simp [hdi, hei])
  · subst h; simp [hdi, hei]
  · subst h
    rcases instructions_pending_not_both op s (instructions op s) hdi hei rfl
      with h1 | h1
    · exact Or.inl h1
    · exact Or.inr h1

/-- run_instruction on a non-halted state with a pending delayed DI:
clear the pending flag, run one instruction, then force IFF1/IFF2 to 0. -/
theorem run_instruction_clear_di (s : Z80State) (hh : s.halted = false)
    (hdi : s.do_delayed_di = true) :
    run_instruction s =
      (let s0 := { s with do_delayed_di := false }
       let s1 := decode_instruction (memRead s0 s0.pc) { s0 with r := bumpR s0.r }
       let s2 := { s1 with pc := (s1.pc + 1) % 65536 }
       let s3 := { s2 with iff1 := 0, iff2 := 0 }
       (s3.cycle_counter, { s3 with cycle_counter := 0 })) := by
  cases s
  dsimp only at hh hdi
  subst hh hdi
  rfl

/-- run_instruction on a non-halted state with a pending delayed EI (and
no pending DI): clear the flag, run one instruction, then force
IFF1/IFF2 to 1. -/
theorem run_instruction_clear_ei (s : Z80State) (hh : s.halted = false)
    (hdi : s.do_delayed_di = false) (hei : s.do_delayed_ei = true) :
    run_instruction s =
      (let s0 := { s with do_delayed_ei := false }
       let s1 := decode_instruction (memRead s0 s0.pc) { s0 with r := bumpR s0.r }
       let s2 := { s1 with pc := (s1.pc + 1) % 65536 }
       let s3 := { s2 with iff1 := 1, iff2 := 1 }
       (s3.cycle_counter, { s3 with cycle_counter := 0 })) := by
  cases s
  dsimp only at hh hdi hei
  subst hh hdi hei
  rfl

/-- One run_instruction step preserves mutual exclusion of the two
pending delayed-interrupt flags. -/
theorem run_instruction_pending_not_both (s : Z80State)
    (h : s.do_delayed_di = false ∨ s.do_delayed_ei = false) :
    (run_instruction s).2.do_delayed_di = false ∨
    (run_instruction s).2.do_delayed_ei = false := by
  cases hh : s.halted with
  | true =>
    have hr : run_instruction s = (1, s) := by
      unfold run_instruction; rw [if_pos hh]
    rw [hr]; exact h
  | false =>
    cases hdi : s.do_delayed_di with
    | true =>
      have hei : s.do_delayed_ei = false := by
        rcases h with h1 | h1
        · rw [hdi] at h1; exact Bool.noConfusion h1
        · exact h1
      have hd := decode_instruction_not_both
        (memRead { s with do_delayed_di := false }
          ({ s with do_delayed_di := false } : Z80State).pc)
        { ({ s with do_delayed_di := false } : Z80State) with
            r := bumpR ({ s with do_delayed_di := false } : Z80State).r }
        _ rfl hei rfl
      rw [run_instruction_clear_di s hh hdi]
      rcases hd with h1 | h1
      · exact Or.inl h1
      · exact Or.inr h1
    | false =>
      cases hei : s.do_delayed_ei with
      | true =>
        have hd := decode_instruction_not_both
          (memRead { s with do_delayed_ei := false }
            ({ s with do_delayed_ei := false } : Z80State).pc)
          { ({ s with do_delayed_ei := false } : Z80State) with
              r := bumpR ({ s with do_delayed_ei := false } : Z80State).r }
          _ hdi rfl rfl
        rw [run_instruction_clear_ei s hh hdi hei]
        rcases hd with h1 | h1
        · exact Or.inl h1
        · exact Or.inr h1
      | false =>
        have hd := decode_instruction_not_both
          (memRead s s.pc) { s with r := bumpR s.r } _ hdi hei rfl
        rw [run_instruction_not_halted s hh hdi hei]
        rcases hd with h1 | h1
        · exact Or.inl h1
        · exact Or.inr h1

/-- In every reachable state at most one pending delayed flag is set. -/
theorem reachable_pending_not_both (mem io : Nat → Nat) (s : Z80State)
    (h : ReachableZ80 mem io s) :
    s.do_delayed_di = false ∨ s.do_delayed_ei = false := by
  induction h with
  | init => exact Or.inl rfl
  | step t _ ih => exact run_instruction_pending_not_both t ih

/-- C7: (1) in every state reachable by any sequence of run_instruction
calls from power-on, the delayed-DI and delayed-EI flags are never both
true; (2) executing DI (0xf3) from a quiescent non-halted state sets
only the pending-DI flag and leaves IFF1/IFF2 untouched; (3) executing
EI (0xfb) likewise sets only the pending-EI flag and leaves IFF1/IFF2
untouched; (4) on the very next run_instruction after a pending DI both
IFF1 and IFF2 are committed to 0; (5) on the very next run_instruction
after a pending EI (with no pending DI) both are committed to 1. -/
theorem C7_delayed_di_ei (mem io : Nat → Nat) (s : Z80State) :
    (ReachableZ80 mem io s →
      ¬(s.do_delayed_di = true ∧ s.do_delayed_ei = true)) ∧
    (s.halted = false → s.do_delayed_di = false → s.do_delayed_ei = false →
      memRead s s.pc = 0xf3 →
      (run_instruction s).2.do_delayed_di = true ∧
      (run_instruction s).2.do_delayed_ei = false ∧
      (run_instruction s).2.iff1 = s.iff1 ∧
      (run_instruction s).2.iff2 = s.iff2) ∧
    (s.halted = false → s.do_delayed_di = false → s.do_delayed_ei = false →
      memRead s s.pc = 0xfb →
      (run_instruction s).2.do_delayed_ei = true ∧
      (run_instruction s).2.do_delayed_di = false ∧
      (run_instruction s).2.iff1 = s.iff1 ∧
      (run_instruction s).2.iff2 = s.iff2) ∧
    (s.halted = false → s.do_delayed_di = true →
      (run_instruction s).2.iff1 = 0 ∧ (run_instruction s).2.iff2 = 0) ∧
    (s.halted = false → s.do_delayed_di = false → s.do_delayed_ei = true →
      (run_instruction s).2.iff1 = 1 ∧ (run_instruction s).2.iff2 = 1) := by
  refine ⟨?_, ?_, ?_, ?_, ?_⟩
  · intro hreach hboth
    rcases reachable_pending_not_both mem io s hreach with h1 | h1
    · rw [hboth.1] at h1; exact Bool.noConfusion h1
    · rw [hboth.2] at h1; exact Bool.noConfusion h1
  · intro hh hdi hei hop
    rw [run_instruction_not_halted s hh hdi hei]
    simp only [hop]
    have hdec : decode_instruction 0xf3 { s with r := bumpR s.r } =
        { s with r := bumpR s.r, do_delayed_di := true,
                 cycle_counter := s.cycle_counter + 4 } := rfl
    rw [hdec]
    exact ⟨rfl, hei, rfl, rfl⟩
  · intro hh hdi hei hop
    rw [run_instruction_not_halted s hh hdi hei]
    simp only [hop]
    have hdec : decode_instruction 0xfb { s with r := bumpR s.r } =
        { s with r := bumpR s.r, do_delayed_ei := true,
                 cycle_counter := s.cycle_counter + 4 } := rfl
    rw [hdec]
    exact ⟨rfl, hdi, rfl, rfl⟩
  · intro hh hdi
    rw [run_instruction_clear_di s hh hdi]
    exact ⟨rfl, rfl⟩
  · intro hh hdi hei
    rw [run_instruction_clear_ei s hh hdi hei]
    exact ⟨rfl, rfl⟩

/-- Witness for C7 at concrete inputs: the power-on state over a memory
whose byte 0 is DI and whose other bytes are EI.  The invariant holds at
the initial state; executing DI sets only the pending flag and leaves
IFF1 alone; executing EI from PC = 1 sets its pending flag; the next
instruction after the DI commits IFF1 to 0, and the next after the EI
commits IFF1 to 1. -/
theorem C7_delayed_di_ei_witness :
    (¬(c7s.do_delayed_di = true ∧ c7s.do_delayed_ei = true)) ∧
    (run_instruction c7s).2.do_delayed_di = true ∧
    (run_instruction c7s).2.iff1 = c7s.iff1 ∧
    (run_instruction c7sEI).2.do_delayed_ei = true ∧
    (run_instruction (run_instruction c7s).2).2.iff1 = 0 ∧
    (run_instruction (run_instruction c7sEI).2).2.iff1 = 1 := by
  refine ⟨?_, ?_, ?_, ?_, ?_, ?_⟩
  · exact (C7_delayed_di_ei c7mem (fun _ => 0) c7s).1 ReachableZ80.init
  · exact ((C7_delayed_di_ei c7mem (fun _ => 0) c7s).2.1 rfl rfl rfl rfl).1
  · exact ((C7_delayed_di_ei c7mem (fun _ => 0) c7s).2.1 rfl rfl rfl rfl).2.2.1
  · exact ((C7_delayed_di_ei c7mem (fun _ => 0) c7sEI).2.2.1 rfl rfl rfl rfl).1
  · exact ((C7_delayed_di_ei c7mem (fun _ => 0)
      (run_instruction c7s).2).2.2.2.1 (by decide) (by decide)).1
  · exact ((C7_delayed_di_ei c7mem (fun _ => 0)
      (run_instruction c7sEI).2).2.2.2.2 (by decide) (by decide) (by decide)).1
